import Mathlib

/-! Control-plane configuration completion, instance construction and the no-op
converter: a shallow embedding of

* `pkg/controlplane/instance.go`: `Config.Complete`, the `create*Reconciler`
  helpers and `CompletedConfig.New`;
* `staging/src/k8s.io/apiextensions-apiserver/pkg/apiserver/conversion/nop_converter.go`:
  `nopConverter.Convert`.

Go code that mutates its receiver is embedded as a function from the state
before the call to the state after it.  `klog.Fatalf` and the panics of the
`...OrDie` constructors end the process; they are embedded as the `error`
side of `Except Abort`.  Functions of other packages that the embedded code
calls are collected in the record `Deps` and stay arbitrary.
-/

namespace Controlplane

/-! ## Data model -/

/-- Go `time.Duration`: a number of nanoseconds. -/
abbrev Duration := Int

/-- Go `time.Second`. -/
def Second : Duration := 1000000000

/-- Go `time.Minute`. -/
def Minute : Duration := 60 * Second

/-- DefaultEndpointReconcilerInterval is the default amount of time for how often the
endpoints for the kubernetes Service are reconciled (instance.go, line 103). -/
def DefaultEndpointReconcilerInterval : Duration := 10 * Second

/-- DefaultEndpointReconcilerTTL is the default TTL timeout for the storage layer
(instance.go, line 105). -/
def DefaultEndpointReconcilerTTL : Duration := 15 * Second

/-- The interval used to run the Services ClusterIP and NodePort repair loops
(instance.go, line 109). -/
def repairLoopInterval : Duration := 3 * Minute

/-- Go `net.IP`: a byte slice; `none` is the nil slice. -/
abbrev NetIP := Option (List Nat)

/-- Go `net.IPNet`. -/
structure IPNet where
  IP : NetIP
  Mask : Option (List Nat)
deriving DecidableEq, Repr

/-- The type `utilnet.PortRange`: `Size` ports starting at `Base`. -/
structure PortRange where
  Base : Int
  Size : Int
deriving DecidableEq, Repr

/-- A `*restclient.Config`, kept as an opaque handle. -/
structure RestConfig where
  id : Nat
deriving DecidableEq, Repr

/-- A core/v1 client built by `corev1client.NewForConfigOrDie`. -/
structure CoreV1Client where
  id : Nat
deriving DecidableEq, Repr

/-- A discovery/v1 client built by `discoveryclient.NewForConfigOrDie`. -/
structure DiscoveryV1Client where
  id : Nat
deriving DecidableEq, Repr

/-- A `serverstorage.StorageFactory`, kept as an opaque handle. -/
structure StorageFactory where
  id : Nat
deriving DecidableEq, Repr

/-- A storage configuration returned by `StorageFactory.NewConfig`. -/
structure StorageConfig where
  id : Nat
deriving DecidableEq, Repr

/-- The lease store returned by `reconcilers.NewLeases`. -/
structure Leases where
  id : Nat
deriving DecidableEq, Repr

/-- The value `reconcilers.NewEndpointsAdapter(endpointClient, endpointSliceClient)`:
the adapter records the two clients it was built from. -/
structure EndpointsAdapter where
  endpointClient : CoreV1Client
  endpointSliceClient : DiscoveryV1Client
deriving DecidableEq, Repr

/-- The values of the interface `reconcilers.EndpointReconciler`.  The three
constructors of package `reconcilers` return no error; each is embedded as the
record of its arguments.  `other` stands for any implementation a caller may
have put into the configuration itself. -/
inductive EndpointReconciler where
  /-- The value `reconcilers.NewMasterCountEndpointReconciler(masterCount, epAdapter)`. -/
  | masterCount (masterCount : Int) (epAdapter : EndpointsAdapter)
  /-- The value `reconcilers.NewLeaseEndpointReconciler(epAdapter, masterLeases)`. -/
  | lease (epAdapter : EndpointsAdapter) (masterLeases : Leases)
  /-- The value `reconcilers.NewNoneEndpointReconciler()`. -/
  | noneReconciler
  /-- Another implementation of the interface. -/
  | other (id : Nat)
deriving DecidableEq, Repr

/-- The three reconciler strategies. -/
inductive Variant where
  | MasterCount
  | Lease
  | None
deriving DecidableEq, Repr

/-- The strategy a reconciler implements, if it is one of the three of package
`reconcilers`. -/
def EndpointReconciler.variant : EndpointReconciler → Option Variant
  | .masterCount _ _ => some .MasterCount
  | .lease _ _ => some .Lease
  | .noneReconciler => some .None
  | .other _ => none

/-- Modelled from the spec: the constant `reconcilers.MasterCountReconcilerType`,
declared in package `reconcilers`; the spec names the strategy `"master-count"`. -/
def MasterCountReconcilerType : String := "master-count"

/-- Modelled from the spec: the constant `reconcilers.LeaseEndpointReconcilerType`,
declared in package `reconcilers`; the spec names the strategy `"lease"`. -/
def LeaseEndpointReconcilerType : String := "lease"

/-- Modelled from the spec: the constant `reconcilers.NoneEndpointReconcilerType`,
declared in package `reconcilers`; the spec names the strategy `"none"`. -/
def NoneEndpointReconcilerType : String := "none"

/-- EndpointReconcilerConfig holds the endpoint reconciler and endpoint reconciliation
interval to be used by the master.  A nil `Reconciler` is `none`. -/
structure EndpointReconcilerConfig where
  Reconciler : Option EndpointReconciler
  Interval : Duration
deriving DecidableEq, Repr

/-- The type `kubeletclient.KubeletClientConfig`.  Its declaration lies in another
package and `New` only compares a value with the zero value, so a value is kept
as the list of its fields that differ from zero (field name and rendered
content); the zero value is the empty list. -/
structure KubeletClientConfig where
  nonZeroFields : List (String × String)
deriving DecidableEq, Repr

/-- The zero value `kubeletclient.KubeletClientConfig{}`. -/
def KubeletClientConfig.zero : KubeletClientConfig := ⟨[]⟩

/-- ExtraConfig defines extra configuration for the master (instance.go, lines 125-172). -/
structure ExtraConfig where
  EndpointReconcilerConfig : Controlplane.EndpointReconcilerConfig
  KubeletClientConfig : Controlplane.KubeletClientConfig
  ServiceIPRange : IPNet
  APIServerServiceIP : NetIP
  SecondaryServiceIPRange : IPNet
  SecondaryAPIServerServiceIP : NetIP
  APIServerServicePort : Int
  ServiceNodePortRange : PortRange
  KubernetesServiceNodePort : Int
  MasterCount : Int
  MasterEndpointReconcileTTL : Duration
  EndpointReconcilerType : String
  RepairServicesInterval : Duration
deriving DecidableEq, Repr

/-- The type `discovery.CIDRRule`. -/
structure CIDRRule where
  IPRange : IPNet
  Address : String
deriving DecidableEq, Repr

/-- The type `discovery.DefaultAddresses`. -/
structure DefaultAddresses where
  CIDRRules : List CIDRRule
  DefaultAddress : String
deriving DecidableEq, Repr

/-- The values of the interface `discovery.Addresses`: a `DefaultAddresses`, or
another implementation. -/
inductive Addresses where
  | defaultAddresses (d : DefaultAddresses)
  | other (id : Nat)
deriving DecidableEq, Repr

/-- The fields of `genericapiserver.Config` that instance.go reads or writes;
`rest` stands for the state of all its other fields. -/
structure GenericConfig where
  LoopbackClientConfig : Option RestConfig
  ExternalAddress : String
  DiscoveryAddresses : Option Addresses
  PublicAddress : NetIP
  SecureServing : Nat
  rest : Nat
deriving DecidableEq, Repr

/-- The fields of `controlplaneapiserver.Config` that instance.go reads or writes;
`rest` stands for the state of all its other fields. -/
structure ControlPlaneConfig where
  Generic : GenericConfig
  PeerEndpointReconcileInterval : Duration
  StorageFactory : Controlplane.StorageFactory
  EventTTL : Duration
  rest : Nat
deriving DecidableEq, Repr

/-- Config defines configuration for the master (instance.go, lines 175-178).  The
completed configuration points at the same `ExtraConfig` and generic configuration
as the receiver of `Complete`, so one record stands for both. -/
structure Config where
  ControlPlane : ControlPlaneConfig
  ExtraConfig : Controlplane.ExtraConfig
deriving DecidableEq, Repr

/-- The ways configuration completion ends the process instead of returning. -/
inductive Abort where
  /-- A call of `klog.Fatalf` with this message. -/
  | fatal (msg : String)
  /-- A panic of a `...OrDie` constructor or of the generic completion. -/
  | panic (msg : String)
deriving DecidableEq, Repr

/-- What instance.go calls in other packages.  Each entry is the function of
that name; an `Except String` result is the Go pair of a value and an error. -/
structure Deps where
  /-- The generic `controlplaneapiserver.Config.Complete`: the state of the receiver
  after the call, or the reason it did not return. -/
  controlPlaneComplete : ControlPlaneConfig → Except String ControlPlaneConfig
  /-- The function `options.ServiceIPRange`. -/
  ServiceIPRange : IPNet → Except String (IPNet × NetIP)
  /-- The variable `kubeoptions.DefaultServiceNodePortRange`. -/
  DefaultServiceNodePortRange : PortRange
  /-- Go `net.IP.String`. -/
  ipString : NetIP → String
  /-- The function `corev1client.NewForConfig`. -/
  corev1NewForConfig : Option RestConfig → Except String CoreV1Client
  /-- The function `discoveryclient.NewForConfig`. -/
  discoveryNewForConfig : Option RestConfig → Except String DiscoveryV1Client
  /-- The method `StorageFactory.NewConfig`, at a resource of the core group. -/
  storageNewConfig : StorageFactory → String → Except String StorageConfig
  /-- The function `reconcilers.NewLeases`. -/
  NewLeases : StorageConfig → String → Duration → Except String Leases

/-! ## Reconciler construction (instance.go, lines 202-246) -/

/-- The selection of the reconciler as the specification words it: `"master-count"`
is MasterCount, `"lease"` is Lease, `"none"` is None, the empty string defaults
to Lease, and no other string names a strategy. -/
def specSelection (t : String) : Option Variant :=
  if t = "master-count" then some .MasterCount
  else if t = "lease" then some .Lease
  else if t = "none" then some .None
  else if t = "" then some .Lease
  else none

/-- Go `net.JoinHostPort`: a host with a colon is put in brackets. -/
def JoinHostPort (host port : String) : String :=
  if host.contains ':' then "[" ++ host ++ "]:" ++ port else host ++ ":" ++ port

/-- Go `strconv.Itoa`. -/
def Itoa (n : Int) : String := toString n

/-- The pair of clients both `createMasterCountReconciler` and
`createLeaseReconciler` build first (lines 203-205 and 215-217). -/
def newEndpointsAdapter (deps : Deps) (c : Config) : Except Abort EndpointsAdapter :=
  match deps.corev1NewForConfig c.ControlPlane.Generic.LoopbackClientConfig with
  | .error e => .error (.panic e)
  | .ok endpointClient =>
    match deps.discoveryNewForConfig c.ControlPlane.Generic.LoopbackClientConfig with
    | .error e => .error (.panic e)
    | .ok endpointSliceClient => .ok ⟨endpointClient, endpointSliceClient⟩

/-- Config.createMasterCountReconciler (lines 202-208). -/
def createMasterCountReconciler (deps : Deps) (c : Config) : Except Abort EndpointReconciler :=
  match newEndpointsAdapter deps c with
  | .error a => .error a
  | .ok endpointsAdapter => .ok (.masterCount c.ExtraConfig.MasterCount endpointsAdapter)

/-- Config.createNoneReconciler (lines 210-212). -/
def createNoneReconciler (_deps : Deps) (_c : Config) : Except Abort EndpointReconciler :=
  .ok .noneReconciler

/-- Config.createLeaseReconciler (lines 214-230). -/
def createLeaseReconciler (deps : Deps) (c : Config) : Except Abort EndpointReconciler :=
  match newEndpointsAdapter deps c with
  | .error a => .error a
  | .ok endpointsAdapter =>
    let ttl := c.ExtraConfig.MasterEndpointReconcileTTL
    match deps.storageNewConfig c.ControlPlane.StorageFactory "apiServerIPInfo" with
    | .error err => .error (.fatal ("Error creating storage factory config: " ++ err))
    | .ok config =>
      match deps.NewLeases config "/masterleases/" ttl with
      | .error err => .error (.fatal ("Error creating leases: " ++ err))
      | .ok masterLeases => .ok (.lease endpointsAdapter masterLeases)

/-- Config.createEndpointReconciler (lines 232-246). -/
def createEndpointReconciler (deps : Deps) (c : Config) : Except Abort EndpointReconciler :=
  if c.ExtraConfig.EndpointReconcilerType = MasterCountReconcilerType then
    createMasterCountReconciler deps c
  else if c.ExtraConfig.EndpointReconcilerType = ""
      ∨ c.ExtraConfig.EndpointReconcilerType = LeaseEndpointReconcilerType then
    createLeaseReconciler deps c
  else if c.ExtraConfig.EndpointReconcilerType = NoneEndpointReconcilerType then
    createNoneReconciler deps c
  else
    .error (.fatal ("Reconciler not implemented: " ++ c.ExtraConfig.EndpointReconcilerType))

/-! ## Completion (instance.go, lines 248-303) -/

/-- Lines 250-253: the peer interval takes the endpoint reconciler interval
before the generic completion runs. -/
def defaultPeerInterval (c : Config) : Config :=
  if c.ControlPlane.PeerEndpointReconcileInterval = 0
      ∧ c.ExtraConfig.EndpointReconcilerConfig.Interval ≠ 0 then
    { c with ControlPlane :=
        { c.ControlPlane with
          PeerEndpointReconcileInterval := c.ExtraConfig.EndpointReconcilerConfig.Interval } }
  else c

/-- Lines 264-269: the service IP range and the service IP take the computed
values where they are nil. -/
def defaultServiceIP (serviceIPRange : IPNet) (apiServerServiceIP : NetIP)
    (x : ExtraConfig) : ExtraConfig :=
  let x1 := if x.ServiceIPRange.IP = none then { x with ServiceIPRange := serviceIPRange } else x
  if x1.APIServerServiceIP = none then { x1 with APIServerServiceIP := apiServerServiceIP } else x1

/-- Lines 272-274: the discovery addresses built from the external address, the
service IP range, the service IP and the service port. -/
def discoveryAddresses (deps : Deps) (cp : ControlPlaneConfig) (x : ExtraConfig) :
    DefaultAddresses :=
  { DefaultAddress := cp.Generic.ExternalAddress
    CIDRRules := [] ++
      [{ IPRange := x.ServiceIPRange
         Address := JoinHostPort (deps.ipString x.APIServerServiceIP)
           (Itoa x.APIServerServicePort) }] }

/-- The assignment `cfg.ControlPlane.Generic.DiscoveryAddresses = d`. -/
def setDiscoveryAddresses (cp : ControlPlaneConfig) (d : Addresses) : ControlPlaneConfig :=
  { cp with Generic := { cp.Generic with DiscoveryAddresses := some d } }

/-- Line 275: the generic discovery addresses are overridden. -/
def overrideDiscoveryAddresses (deps : Deps) (cp : ControlPlaneConfig) (x : ExtraConfig) :
    ControlPlaneConfig :=
  setDiscoveryAddresses cp (.defaultAddresses (discoveryAddresses deps cp x))

/-- Lines 277-284. -/
def defaultNodePortRange (deps : Deps) (x : ExtraConfig) : ExtraConfig :=
  if x.ServiceNodePortRange.Size = 0 then
    { x with ServiceNodePortRange := deps.DefaultServiceNodePortRange }
  else x

/-- Lines 286-288. -/
def defaultInterval (x : ExtraConfig) : ExtraConfig :=
  if x.EndpointReconcilerConfig.Interval = 0 then
    { x with EndpointReconcilerConfig :=
        { x.EndpointReconcilerConfig with Interval := DefaultEndpointReconcilerInterval } }
  else x

/-- Lines 290-292. -/
def defaultTTL (x : ExtraConfig) : ExtraConfig :=
  if x.MasterEndpointReconcileTTL = 0 then
    { x with MasterEndpointReconcileTTL := DefaultEndpointReconcilerTTL }
  else x

/-- Lines 298-300. -/
def defaultRepairInterval (x : ExtraConfig) : ExtraConfig :=
  if x.RepairServicesInterval = 0 then
    { x with RepairServicesInterval := repairLoopInterval }
  else x

/-- The assignment `cfg.ExtraConfig.EndpointReconcilerConfig.Reconciler = r` (line 295). -/
def withReconciler (c : Config) (r : EndpointReconciler) : Config :=
  { c with ExtraConfig :=
      { c.ExtraConfig with
        EndpointReconcilerConfig :=
          { c.ExtraConfig.EndpointReconcilerConfig with Reconciler := some r } } }

/-- Lines 294-296: an unset reconciler is built by `createEndpointReconciler`,
called on the receiver as it stands at that point. -/
def defaultReconciler (deps : Deps) (c : Config) : Except Abort Config :=
  match c.ExtraConfig.EndpointReconcilerConfig.Reconciler with
  | some _ => .ok c
  | none =>
    match createEndpointReconciler deps c with
    | .error a => .error a
    | .ok r => .ok (withReconciler c r)

/-- Lines 255-292: the receiver as it stands when `Complete` reaches line 294,
given what the generic completion and `options.ServiceIPRange` returned. -/
def beforeReconciler (deps : Deps) (c : Config) (cp : ControlPlaneConfig) (r : IPNet)
    (ip : NetIP) : Config :=
  { ControlPlane := overrideDiscoveryAddresses deps cp (defaultServiceIP r ip c.ExtraConfig)
    ExtraConfig :=
      defaultTTL (defaultInterval (defaultNodePortRange deps
        (defaultServiceIP r ip c.ExtraConfig))) }

/-- Config.Complete (lines 249-303): the state of the receiver, which the
completed configuration points at, when `Complete` returns. -/
def Complete (deps : Deps) (c : Config) : Except Abort Config :=
  let c1 := defaultPeerInterval c
  match deps.controlPlaneComplete c1.ControlPlane with
  | .error e => .error (.panic e)
  | .ok cp =>
    match deps.ServiceIPRange c1.ExtraConfig.ServiceIPRange with
    | .error err => .error (.fatal ("Error determining service IP ranges: " ++ err))
    | .ok (serviceIPRange, apiServerServiceIP) =>
      match defaultReconciler deps (beforeReconciler deps c1 cp serviceIPRange apiServerServiceIP) with
      | .error a => .error a
      | .ok c4 => .ok { c4 with ExtraConfig := defaultRepairInterval c4.ExtraConfig }

/-! ## The generic completion and the service IP range, from the spec -/

/-- Modelled from the spec: the default of the peer endpoint reconcile interval,
a constant of package `controlplaneapiserver`, which is not among the source
files.  The spec has an unset interval receive its documented default; ten
seconds is the reconcile interval of the spec's scenario and the default of
line 103. -/
def DefaultPeerEndpointReconcileInterval : Duration := 10 * Second

/-- Modelled from the spec: the generic completion
`controlplaneapiserver.Config.Complete` called at line 256, which is not among
the source files.  The spec has completion give an unset interval its
documented default and never overwrite a field the caller has set; the comment
of line 251 has the generic completion default the peer interval.  Nothing else
of the control-plane configuration is changed. -/
def specControlPlaneComplete (cp : ControlPlaneConfig) : ControlPlaneConfig :=
  if cp.PeerEndpointReconcileInterval = 0 then
    { cp with PeerEndpointReconcileInterval := DefaultPeerEndpointReconcileInterval }
  else cp

/-- Modelled from the spec: the default service IP range, a variable of package
`kubeoptions`, which is not among the source files.  The spec has an unset IP
range receive its documented default; the range is taken to be 10.0.0.0/24. -/
def DefaultServiceIPCIDR : IPNet := ⟨some [10, 0, 0, 0], some [255, 255, 255, 0]⟩

/-- The address after the given one, its bytes taken lowest first. -/
def incrementLowFirst : List Nat → List Nat
  | [] => []
  | b :: rest => if b < 255 then (b + 1) :: rest else 0 :: incrementLowFirst rest

/-- The address after the given one. -/
def nextAddress (bs : List Nat) : List Nat := (incrementLowFirst bs.reverse).reverse

/-- Modelled from the spec: the function `options.ServiceIPRange` called at line
260, which is not among the source files.  The spec has an unset IP range
receive its documented default and never overwrite a range the caller has set;
the service IP is an address inside the range (the comment of line 132), taken
to be the address after the base address of the range.  The function returns
the range and the service IP. -/
def specServiceIPRange (passedServiceClusterIPRange : IPNet) : IPNet × NetIP :=
  let serviceClusterIPRange :=
    if passedServiceClusterIPRange.IP = none then DefaultServiceIPCIDR
    else passedServiceClusterIPRange
  (serviceClusterIPRange, serviceClusterIPRange.IP.map nextAddress)

/-- The collaborators `deps`, with the generic completion and the service IP
range computation as they are modelled from the spec. -/
def specDeps (deps : Deps) : Deps :=
  { deps with
    controlPlaneComplete := fun cp => .ok (specControlPlaneComplete cp)
    ServiceIPRange := fun r => .ok (specServiceIPRange r) }

/-! ## Instance construction (instance.go, lines 305-417) -/

/-- A `genericapiserver.DelegationTarget`, kept as an opaque handle. -/
structure DelegationTarget where
  id : Nat
deriving DecidableEq, Repr

/-- A `*kubernetes.Clientset` built by `kubernetes.NewForConfig`. -/
structure Clientset where
  id : Nat
deriving DecidableEq, Repr

/-- The configuration handed to `corerest.New` (lines 331-352).  The generic part
and the proxy transport are read from the completed control-plane configuration,
which is kept whole. -/
structure CorerestConfig where
  ControlPlane : ControlPlaneConfig
  KubeletClientConfig : Controlplane.KubeletClientConfig
  ClusterIPRange : IPNet
  SecondaryClusterIPRange : IPNet
  NodePortRange : PortRange
  IPRepairInterval : Duration
deriving DecidableEq, Repr

/-- The REST storage providers of lines 364-387, in the order of the list.  The
authenticator, authorizer and informer arguments, read from the generic
configuration, are left out. -/
inductive RESTStorageProvider where
  | legacy (id : Nat)
  | apiserverinternal
  | authentication
  | authorization
  | autoscaling
  | batch
  | certificates
  | coordination
  | discovery
  | networking
  | node
  | policy
  | rbac
  | scheduling
  | storage
  | flowcontrol
  | apps
  | admissionregistration (discoveryClient : Clientset)
  | events (TTL : Duration)
  | resource
deriving DecidableEq, Repr

/-- The type `kubernetesservice.Config` as lines 396-406 fill it. -/
structure KubernetesServiceConfig where
  PublicIP : NetIP
  EndpointReconciler : Option Controlplane.EndpointReconciler
  EndpointInterval : Duration
  ServiceIP : NetIP
  ServicePort : Int
  PublicServicePort : Int
  KubernetesServiceNodePort : Int
deriving DecidableEq, Repr

/-- The controller `kubernetesservice.New(config, client, serviceInformer)` returns:
the record of its arguments. -/
structure Controller where
  Config : KubernetesServiceConfig
  client : Clientset
  serviceInformer : Nat
deriving DecidableEq, Repr

/-- The calls a hook makes on the kubernetes-service controller. -/
inductive ControllerCall where
  | Start (ctrl : Controller) (stopCh : Nat)
  | Stop (ctrl : Controller)
deriving DecidableEq, Repr

/-- The post-start hook of lines 407-410: a closure over the controller. -/
structure PostStartHook where
  kubernetesServiceCtrl : Controller
deriving DecidableEq, Repr

/-- The pre-shutdown hook of lines 411-414: a closure over the controller. -/
structure PreShutdownHook where
  kubernetesServiceCtrl : Controller
deriving DecidableEq, Repr

/-- Running the post-start hook with a hook context whose stop channel is
`stopCh` (lines 408-409): the calls made and the error returned. -/
def PostStartHook.run (h : PostStartHook) (stopCh : Nat) : List ControllerCall × Option String :=
  ([.Start h.kubernetesServiceCtrl stopCh], none)

/-- Running the pre-shutdown hook (lines 412-413): the calls made and the error
returned. -/
def PreShutdownHook.run (h : PreShutdownHook) : List ControllerCall × Option String :=
  ([.Stop h.kubernetesServiceCtrl], none)

/-- A function registered as a post-start hook with the generic server: the
closure of lines 407-410, or a hook of other code. -/
inductive PostStartHookFunc where
  | bootstrapController (hook : PostStartHook)
  | other (id : Nat)
deriving DecidableEq, Repr

/-- A function registered as a pre-shutdown hook with the generic server: the
closure of lines 411-414, or a hook of other code. -/
inductive PreShutdownHookFunc where
  | stopController (hook : PreShutdownHook)
  | other (id : Nat)
deriving DecidableEq, Repr

/-- A `*controlplaneapiserver.Server`.  Of its `GenericAPIServer` (library
`k8s.io/apiserver`) the record keeps the names of the post-start hooks that are
disabled, the post-start and the pre-shutdown hooks registered under their
names, and whether the hooks have been called already; `id` stands for the rest
of its state. -/
structure Server where
  id : Nat
  disabledPostStartHooks : List String
  postStartHooks : List (String × PostStartHookFunc)
  postStartHooksCalled : Bool
  preShutdownHooks : List (String × PreShutdownHookFunc)
  preShutdownHooksCalled : Bool
deriving DecidableEq, Repr

/-- Instance contains state for a Kubernetes cluster api server instance
(instance.go, lines 198-200). -/
structure Instance where
  ControlPlane : Server
deriving DecidableEq, Repr

/-- The calls `New` makes on its collaborators. -/
inductive Action where
  /-- The call `c.ControlPlane.New(name, delegationTarget)` (line 314). -/
  | controlPlaneNew (name : String) (delegationTarget : DelegationTarget)
  /-- The call `kubernetes.NewForConfig` (line 323). -/
  | kubernetesNewForConfig (cfg : Option RestConfig)
  /-- The call `corerest.New` (line 331). -/
  | corerestNew (cfg : CorerestConfig)
  /-- The call `InstallAPIs` (line 388). -/
  | installAPIs (providers : List RESTStorageProvider)
  /-- The call `SecureServing.HostPort` (line 392). -/
  | hostPort
  /-- The call `kubernetesservice.New` (line 396). -/
  | kubernetesserviceNew (ctrl : Controller)
  /-- The call `AddPostStartHookOrDie` (line 407). -/
  | addPostStartHook (name : String) (hook : PostStartHook)
  /-- The call `AddPreShutdownHookOrDie` (line 411). -/
  | addPreShutdownHook (name : String) (hook : PreShutdownHook)
deriving DecidableEq, Repr

/-- How a call of `New` ends: it returns the Go pair of an instance and an
error, or one of the `...OrDie` registrations ends the process. -/
inductive NewResult where
  | returned (inst : Option Instance) (err : Option String)
  | died (msg : String)
deriving DecidableEq, Repr

/-- A call of `New`: the calls made on the collaborators, in order, and how it
ended. -/
structure NewOutcome where
  actions : List Action
  result : NewResult
deriving DecidableEq, Repr

/-- What `New` calls in other packages.  A server argument and result is the
state of the control-plane server before and after the call. -/
structure NewDeps where
  /-- The generic `controlplaneapiserver.CompletedConfig.New`. -/
  controlPlaneNew : ControlPlaneConfig → String → DelegationTarget → Except String Server
  /-- The function `kubernetes.NewForConfig`. -/
  kubernetesNewForConfig : Option RestConfig → Except String Clientset
  /-- The function `corerest.New`: the legacy provider. -/
  corerestNew : CorerestConfig → Except String Nat
  /-- The method `Server.InstallAPIs`. -/
  installAPIs : Server → List RESTStorageProvider → Except String Server
  /-- The method `SecureServingInfo.HostPort`. -/
  hostPort : Nat → Except String (String × Int)
  /-- The service informer of the local admin cluster (line 406). -/
  serviceInformer : ControlPlaneConfig → Nat
  /-- The method `GenericAPIServer.AddBootSequenceHealthChecks`, at the health
  check of the given name: the error it returns, if any.  The health checks of
  the server are not part of the record `Server`. -/
  addBootSequenceHealthChecks : Server → String → Option String

/-- Go `%q` of a name: the name between double quotes. -/
def goQuote (name : String) : String :=
  String.singleton (Char.ofNat 34) ++ name ++ String.singleton (Char.ofNat 34)

/-- The method `GenericAPIServer.AddPostStartHook` of `k8s.io/apiserver`, for a
hook that is not nil: the server after the call, or the error returned.  A hook
whose name is among the disabled post-start hooks is skipped without an error. -/
def AddPostStartHook (deps : NewDeps) (s : Server) (name : String)
    (hook : PostStartHookFunc) : Except String Server :=
  if name.length = 0 then .error "missing name"
  else if name ∈ s.disabledPostStartHooks then .ok s
  else if s.postStartHooksCalled then
    .error ("unable to add " ++ goQuote name
      ++ " because PostStartHooks have already been called")
  else if name ∈ s.postStartHooks.map Prod.fst then
    .error ("unable to add " ++ goQuote name ++ " because it was already registered")
  else
    match deps.addBootSequenceHealthChecks s ("poststarthook/" ++ name) with
    | some err => .error err
    | none => .ok { s with postStartHooks := s.postStartHooks ++ [(name, hook)] }

/-- The method `GenericAPIServer.AddPreShutdownHook` of `k8s.io/apiserver`, for a
hook that is not nil: the server after the call, or the error returned. -/
def AddPreShutdownHook (s : Server) (name : String) (hook : PreShutdownHookFunc) :
    Except String Server :=
  if name.length = 0 then .error "missing name"
  else if s.preShutdownHooksCalled then
    .error ("unable to add " ++ goQuote name
      ++ " because PreShutdownHooks have already been called")
  else if name ∈ s.preShutdownHooks.map Prod.fst then
    .error ("unable to add " ++ goQuote name ++ " because it is already registered")
  else .ok { s with preShutdownHooks := s.preShutdownHooks ++ [(name, hook)] }

/-- The method `GenericAPIServer.AddPostStartHookOrDie`: the server after the
call, or the message of the `klog.Fatalf` that ends the process. -/
def AddPostStartHookOrDie (deps : NewDeps) (s : Server) (name : String)
    (hook : PostStartHookFunc) : Except String Server :=
  match AddPostStartHook deps s name hook with
  | .error err => .error ("Error registering PostStartHook " ++ goQuote name ++ ": " ++ err)
  | .ok s' => .ok s'

/-- The method `GenericAPIServer.AddPreShutdownHookOrDie`: the server after the
call, or the message of the `klog.Fatalf` that ends the process. -/
def AddPreShutdownHookOrDie (s : Server) (name : String) (hook : PreShutdownHookFunc) :
    Except String Server :=
  match AddPreShutdownHook s name hook with
  | .error err => .error ("Error registering PreShutdownHook " ++ goQuote name ++ ": " ++ err)
  | .ok s' => .ok s'

/-- The list `restStorageProviders` of lines 364-387. -/
def restStorageProviders (c : Config) (legacyRESTStorageProvider : Nat) (client : Clientset) :
    List RESTStorageProvider :=
  [ .legacy legacyRESTStorageProvider, .apiserverinternal, .authentication, .authorization,
    .autoscaling, .batch, .certificates, .coordination, .discovery, .networking, .node,
    .policy, .rbac, .scheduling, .storage, .flowcontrol, .apps,
    .admissionregistration client, .events c.ControlPlane.EventTTL, .resource ]

/-- The configuration of lines 331-352. -/
def corerestConfig (c : Config) : CorerestConfig :=
  { ControlPlane := c.ControlPlane
    KubeletClientConfig := c.ExtraConfig.KubeletClientConfig
    ClusterIPRange := c.ExtraConfig.ServiceIPRange
    SecondaryClusterIPRange := c.ExtraConfig.SecondaryServiceIPRange
    NodePortRange := c.ExtraConfig.ServiceNodePortRange
    IPRepairInterval := c.ExtraConfig.RepairServicesInterval }

/-- The controller of lines 396-406. -/
def kubernetesServiceCtrl (deps : NewDeps) (c : Config) (client : Clientset)
    (publicServicePort : Int) : Controller :=
  { Config :=
      { PublicIP := c.ControlPlane.Generic.PublicAddress
        EndpointReconciler := c.ExtraConfig.EndpointReconcilerConfig.Reconciler
        EndpointInterval := c.ExtraConfig.EndpointReconcilerConfig.Interval
        ServiceIP := c.ExtraConfig.APIServerServiceIP
        ServicePort := c.ExtraConfig.APIServerServicePort
        PublicServicePort := publicServicePort
        KubernetesServiceNodePort := c.ExtraConfig.KubernetesServiceNodePort }
    client := client
    serviceInformer := deps.serviceInformer c.ControlPlane }

/-- CompletedConfig.New (lines 309-417), on a completed configuration `c`. -/
def New (deps : NewDeps) (c : Config) (delegationTarget : DelegationTarget) : NewOutcome :=
  if c.ExtraConfig.KubeletClientConfig = KubeletClientConfig.zero then
    ⟨[], .returned none (some "Master.New() called with empty config.KubeletClientConfig")⟩
  else
    let a1 := [Action.controlPlaneNew "kube-apiserver" delegationTarget]
    match deps.controlPlaneNew c.ControlPlane "kube-apiserver" delegationTarget with
    | .error err => ⟨a1, .returned none (some err)⟩
    | .ok cp =>
      let a2 := a1 ++ [.kubernetesNewForConfig c.ControlPlane.Generic.LoopbackClientConfig]
      match deps.kubernetesNewForConfig c.ControlPlane.Generic.LoopbackClientConfig with
      | .error err => ⟨a2, .returned none (some err)⟩
      | .ok client =>
        let a3 := a2 ++ [.corerestNew (corerestConfig c)]
        match deps.corerestNew (corerestConfig c) with
        | .error err => ⟨a3, .returned none (some err)⟩
        | .ok legacyRESTStorageProvider =>
          let providers := restStorageProviders c legacyRESTStorageProvider client
          let a4 := a3 ++ [.installAPIs providers]
          match deps.installAPIs cp providers with
          | .error err => ⟨a4, .returned none (some err)⟩
          | .ok s1 =>
            let a5 := a4 ++ [.hostPort]
            match deps.hostPort c.ControlPlane.Generic.SecureServing with
            | .error err =>
              ⟨a5, .returned none (some ("failed to get listener address: " ++ err))⟩
            | .ok (_, publicServicePort) =>
              let ctrl := kubernetesServiceCtrl deps c client publicServicePort
              let a6 := a5 ++ [.kubernetesserviceNew ctrl, .addPostStartHook "bootstrap-controller" ⟨ctrl⟩]
              match AddPostStartHookOrDie deps s1 "bootstrap-controller"
                  (.bootstrapController ⟨ctrl⟩) with
              | .error msg => ⟨a6, .died msg⟩
              | .ok s2 =>
                let a7 := a6 ++ [.addPreShutdownHook "stop-kubernetes-service-controller" ⟨ctrl⟩]
                match AddPreShutdownHookOrDie s2 "stop-kubernetes-service-controller"
                    (.stopController ⟨ctrl⟩) with
                | .error msg => ⟨a7, .died msg⟩
                | .ok s3 => ⟨a7, .returned (some ⟨s3⟩) none⟩

/-- The calls of a `New` that goes through to line 416. -/
def successfulActions (deps : NewDeps) (c : Config) (delegationTarget : DelegationTarget)
    (client : Clientset) (legacyRESTStorageProvider : Nat) (publicServicePort : Int) :
    List Action :=
  [ .controlPlaneNew "kube-apiserver" delegationTarget,
    .kubernetesNewForConfig c.ControlPlane.Generic.LoopbackClientConfig,
    .corerestNew (corerestConfig c),
    .installAPIs (restStorageProviders c legacyRESTStorageProvider client),
    .hostPort,
    .kubernetesserviceNew (kubernetesServiceCtrl deps c client publicServicePort),
    .addPostStartHook "bootstrap-controller"
      ⟨kubernetesServiceCtrl deps c client publicServicePort⟩,
    .addPreShutdownHook "stop-kubernetes-service-controller"
      ⟨kubernetesServiceCtrl deps c client publicServicePort⟩ ]

/-- The calls of `AddPostStartHookOrDie` among a list of calls, in order: the name
and the hook handed over.  What the server registers of them is decided by
`AddPostStartHook`. -/
def addPostStartHookCalls : List Action → List (String × PostStartHook)
  | [] => []
  | .addPostStartHook name hook :: rest => (name, hook) :: addPostStartHookCalls rest
  | _ :: rest => addPostStartHookCalls rest

/-- The calls of `AddPreShutdownHookOrDie` among a list of calls, in order: the
name and the hook handed over. -/
def addPreShutdownHookCalls : List Action → List (String × PreShutdownHook)
  | [] => []
  | .addPreShutdownHook name hook :: rest => (name, hook) :: addPreShutdownHookCalls rest
  | _ :: rest => addPreShutdownHookCalls rest

/-! ## A concrete set of collaborators and configurations -/

/-- Dotted rendering of the bytes of an address, `<nil>` for the nil address. -/
def sampleIPString : NetIP → String
  | none => "<nil>"
  | some bs => ".".intercalate (bs.map toString)

/-- Collaborators that all succeed: the generic completion gives a zero peer
interval ten seconds, the service IP range falls back to 10.0.0.0/24 and the
service IP is the first address of the range, the node-port range falls back to
30000-32767. -/
def sampleDeps : Deps where
  controlPlaneComplete := fun cp =>
    .ok (if cp.PeerEndpointReconcileInterval = 0 then
      { cp with PeerEndpointReconcileInterval := 10 * Second } else cp)
  ServiceIPRange := fun r =>
    match r.IP with
    | none => .ok (⟨some [10, 0, 0, 0], some [255, 255, 255, 0]⟩, some [10, 0, 0, 1])
    | some bs => .ok (r, some (bs.dropLast ++ [1]))
  DefaultServiceNodePortRange := ⟨30000, 2768⟩
  ipString := sampleIPString
  corev1NewForConfig := fun
    | none => .error "config is nil"
    | some cfg => .ok ⟨cfg.id⟩
  discoveryNewForConfig := fun
    | none => .error "config is nil"
    | some cfg => .ok ⟨cfg.id⟩
  storageNewConfig := fun f _ => .ok ⟨f.id⟩
  NewLeases := fun cfg _ _ => .ok ⟨cfg.id⟩

/-- The sample collaborators, but with a generic completion that changes nothing. -/
def idleCompletionDeps : Deps :=
  { sampleDeps with controlPlaneComplete := fun cp => .ok cp }

/-- A configuration in which every field that `Complete` defaults is unset. -/
def sampleConfig : Config where
  ControlPlane :=
    { Generic :=
        { LoopbackClientConfig := some ⟨1⟩
          ExternalAddress := "192.0.2.1:6443"
          DiscoveryAddresses := none
          PublicAddress := some [192, 0, 2, 1]
          SecureServing := 0
          rest := 0 }
      PeerEndpointReconcileInterval := 0
      StorageFactory := ⟨7⟩
      EventTTL := 3600 * Second
      rest := 0 }
  ExtraConfig :=
    { EndpointReconcilerConfig := ⟨none, 0⟩
      KubeletClientConfig := ⟨[("Port", "10250")]⟩
      ServiceIPRange := ⟨none, none⟩
      APIServerServiceIP := none
      SecondaryServiceIPRange := ⟨none, none⟩
      SecondaryAPIServerServiceIP := none
      APIServerServicePort := 443
      ServiceNodePortRange := ⟨0, 0⟩
      KubernetesServiceNodePort := 0
      MasterCount := 1
      MasterEndpointReconcileTTL := 0
      EndpointReconcilerType := ""
      RepairServicesInterval := 0 }

/-- The sample configuration with another reconciler type. -/
def sampleConfigOfType (t : String) : Config :=
  { sampleConfig with ExtraConfig := { sampleConfig.ExtraConfig with EndpointReconcilerType := t } }

/-- The sample configuration with a reconciler of the caller's own and a type
string that names no strategy. -/
def presetReconcilerConfig : Config :=
  { sampleConfig with
    ExtraConfig :=
      { sampleConfig.ExtraConfig with
        EndpointReconcilerConfig := ⟨some (.other 0), 0⟩
        EndpointReconcilerType := "bogus" } }

/-- The sample configuration selecting the master-count strategy with the given count. -/
def masterCountConfig (n : Int) : Config :=
  { sampleConfig with
    ExtraConfig :=
      { sampleConfig.ExtraConfig with
        EndpointReconcilerType := "master-count"
        MasterCount := n } }

/-- Collaborators of `New` that all succeed. -/
def sampleNewDeps : NewDeps where
  controlPlaneNew := fun _ _ dt =>
    .ok { id := dt.id
          disabledPostStartHooks := []
          postStartHooks := [("generic-apiserver-start-informers", .other 0)]
          postStartHooksCalled := false
          preShutdownHooks := []
          preShutdownHooksCalled := false }
  kubernetesNewForConfig := fun
    | none => .error "config is nil"
    | some cfg => .ok ⟨cfg.id⟩
  corerestNew := fun _ => .ok 0
  installAPIs := fun s _ => .ok { s with id := s.id + 1 }
  hostPort := fun _ => .ok ("192.0.2.1", 6443)
  serviceInformer := fun _ => 0
  addBootSequenceHealthChecks := fun _ _ => none

/-- The sample collaborators of `New`, but the generic server is built with the
post-start hook `bootstrap-controller` disabled. -/
def disabledHookNewDeps : NewDeps :=
  { sampleNewDeps with
    controlPlaneNew := fun _ _ dt =>
      .ok { id := dt.id
            disabledPostStartHooks := ["bootstrap-controller"]
            postStartHooks := [("generic-apiserver-start-informers", .other 0)]
            postStartHooksCalled := false
            preShutdownHooks := []
            preShutdownHooksCalled := false } }

/-- The sample configuration with the zero kubelet client configuration. -/
def zeroKubeletConfig : Config :=
  { sampleConfig with
    ExtraConfig := { sampleConfig.ExtraConfig with KubeletClientConfig := KubeletClientConfig.zero } }

/-- The sample configuration with a master endpoint reconcile TTL of 30 seconds
and no endpoint reconciler interval. -/
def ttlOnlyConfig : Config :=
  { sampleConfig with
    ExtraConfig := { sampleConfig.ExtraConfig with MasterEndpointReconcileTTL := 30 * Second } }

/-- The sample configuration with an endpoint reconciler interval of 20 seconds
and no master endpoint reconcile TTL. -/
def intervalOnlyConfig : Config :=
  { sampleConfig with
    ExtraConfig :=
      { sampleConfig.ExtraConfig with EndpointReconcilerConfig := ⟨none, 20 * Second⟩ } }

/-- The sample configuration in which the caller has set discovery addresses of
its own, a node-port range with a base and no size, and a service IP range with
a mask and no address. -/
def callerSetConfig : Config :=
  { ControlPlane :=
      { sampleConfig.ControlPlane with
        Generic := { sampleConfig.ControlPlane.Generic with DiscoveryAddresses := some (.other 5) } }
    ExtraConfig :=
      { sampleConfig.ExtraConfig with
        ServiceNodePortRange := ⟨5, 0⟩
        ServiceIPRange := ⟨none, some [255, 0, 0, 0]⟩ } }

/-- The configuration `Complete` returns at the sample configuration, with the
sample collaborators. -/
def sampleCompleted : Config :=
  match Complete sampleDeps sampleConfig with
  | .ok c => c
  | .error _ => sampleConfig

/-- The sample configuration in which the caller has set a peer interval of 7
seconds, a reconciler of its own and a service IP range of its own. -/
def callerKeptConfig : Config :=
  { ControlPlane := { sampleConfig.ControlPlane with PeerEndpointReconcileInterval := 7 * Second }
    ExtraConfig :=
      { sampleConfig.ExtraConfig with
        EndpointReconcilerConfig := ⟨some (.other 0), 0⟩
        ServiceIPRange := ⟨some [172, 16, 0, 0], some [255, 255, 0, 0]⟩ } }

end Controlplane

namespace Conversion

/-! ## The no-op converter (nop_converter.go)

`Convert` works on `unstructured.UnstructuredList` and `schema.GroupVersion` of
the library `k8s.io/apimachinery`.  The accessors it calls are embedded here
after the library: `ParseGroupVersion`, `GroupVersion.String`,
`GroupVersion.WithKind`, `Unstructured.GetAPIVersion`, `GetKind`,
`SetAPIVersion`, `SetKind`, `GroupVersionKind` and `SetGroupVersionKind`.

A Go map is a reference: two items of a list, or an item and the list itself,
may hold the same map, and a write through one is seen through the other.  Maps
therefore live in a `Heap` and are held by address. -/

/-- The address of a map in memory. -/
abbrev Addr := Nat

/-- A value held in an unstructured object: what `encoding/json` decodes into an
`interface{}`.  A `float64` is kept as its bit pattern, a nested map as the
address of the map. -/
inductive Value where
  | null
  | bool (b : Bool)
  | int (n : Int)
  | float (bits : Nat)
  | str (s : String)
  | list (items : List Value)
  | map (ref : Addr)

/-- The contents of a Go `map[string]interface{}`, as the list of its entries;
the entry found first for a key is the one the map holds. -/
abbrev Fields := List (String × Value)

/-- The map read `m[k]`. -/
def getField (m : Fields) (k : String) : Option Value :=
  match m with
  | [] => none
  | (k', v) :: rest => if k' = k then some v else getField rest k

/-- The map write `m[k] = v`. -/
def setField (m : Fields) (k : String) (v : Value) : Fields :=
  match m with
  | [] => [(k, v)]
  | (k', v') :: rest => if k' = k then (k, v) :: rest else (k', v') :: setField rest k v

/-- The maps in memory: the contents of the map at each address, and the first
address no map has been made at. -/
structure Heap where
  maps : Addr → Fields
  next : Addr

/-- The heap after the write `m[k] = v` on the map at address `a`. -/
def Heap.write (h : Heap) (a : Addr) (k : String) (v : Value) : Heap :=
  { h with maps := fun b => if b = a then setField (h.maps a) k v else h.maps b }

/-- Go `make(map[string]interface{})`: the heap with a new, empty map, and the
address of that map. -/
def Heap.make (h : Heap) : Heap × Addr :=
  ({ maps := fun b => if b = h.next then [] else h.maps b, next := h.next + 1 }, h.next)

/-- The type `unstructured.Unstructured`: the map it holds, `none` for the nil map. -/
structure Unstructured where
  Object : Option Addr
deriving DecidableEq, Repr

/-- The type `unstructured.UnstructuredList`. -/
structure UnstructuredList where
  Object : Option Addr
  Items : List Unstructured
deriving DecidableEq, Repr

/-- The type `schema.GroupVersion`. -/
structure GroupVersion where
  Group : String
  Version : String
deriving DecidableEq, Repr

/-- The type `schema.GroupVersionKind`. -/
structure GroupVersionKind where
  Group : String
  Version : String
  Kind : String
deriving DecidableEq, Repr

/-- The method `GroupVersion.WithKind`. -/
def GroupVersion.WithKind (gv : GroupVersion) (kind : String) : GroupVersionKind :=
  ⟨gv.Group, gv.Version, kind⟩

/-- The method `GroupVersionKind.GroupVersion`. -/
def GroupVersionKind.GroupVersion (gvk : GroupVersionKind) : Conversion.GroupVersion :=
  ⟨gvk.Group, gvk.Version⟩

/-- The method `GroupVersion.String`: `group/version`, or the version alone when
the group is empty. -/
def GroupVersion.String (gv : GroupVersion) : String :=
  if gv.Group.length > 0 then gv.Group ++ "/" ++ gv.Version else gv.Version

/-- Go `strings.Count(s, "/")`. -/
def countSlash (s : String) : Nat := s.data.count '/'

/-- Go `s[:strings.Index(s, "/")]`, for a string with a slash. -/
def beforeSlash (s : String) : String := ⟨s.data.takeWhile (fun ch => ch != '/')⟩

/-- Go `s[strings.Index(s, "/")+1:]`, for a string with a slash. -/
def afterSlash (s : String) : String := ⟨(s.data.dropWhile (fun ch => ch != '/')).tail⟩

/-- The function `schema.ParseGroupVersion`. -/
def ParseGroupVersion (gv : String) : Except String GroupVersion :=
  if gv.length = 0 ∨ gv = "/" then .ok ⟨"", ""⟩
  else
    match countSlash gv with
    | 0 => .ok ⟨"", gv⟩
    | 1 => .ok ⟨beforeSlash gv, afterSlash gv⟩
    | _ => .error ("unexpected GroupVersion string: " ++ gv)

/-- The helper `getNestedString(obj, field)` at a single field: the string held
at the field, and the empty string when the map is nil, the field is absent or
the field holds no string. -/
def getNestedString (h : Heap) (obj : Option Addr) (field : String) : String :=
  match obj with
  | none => ""
  | some a =>
    match getField (h.maps a) field with
    | some (.str s) => s
    | _ => ""

/-- The method `Unstructured.setNestedField` at a single field: a nil map is made
first and put into the item, then the field is written. -/
def Unstructured.setNestedField (h : Heap) (u : Unstructured) (value : Value)
    (field : String) : Heap × Unstructured :=
  match u.Object with
  | none => ((h.make.1).write h.make.2 field value, ⟨some h.make.2⟩)
  | some a => (h.write a field value, u)

/-- The field `k` of an item: the map read `u.Object[k]`, absent on the nil map. -/
def Unstructured.field (h : Heap) (u : Unstructured) (k : String) : Option Value :=
  match u.Object with
  | none => none
  | some a => getField (h.maps a) k

/-- The method `Unstructured.GetAPIVersion`. -/
def Unstructured.GetAPIVersion (h : Heap) (u : Unstructured) : String :=
  getNestedString h u.Object "apiVersion"

/-- The method `Unstructured.GetKind`. -/
def Unstructured.GetKind (h : Heap) (u : Unstructured) : String :=
  getNestedString h u.Object "kind"

/-- The method `Unstructured.SetAPIVersion`. -/
def Unstructured.SetAPIVersion (h : Heap) (u : Unstructured) (version : String) :
    Heap × Unstructured :=
  u.setNestedField h (.str version) "apiVersion"

/-- The method `Unstructured.SetKind`. -/
def Unstructured.SetKind (h : Heap) (u : Unstructured) (kind : String) :
    Heap × Unstructured :=
  u.setNestedField h (.str kind) "kind"

/-- The method `Unstructured.GroupVersionKind`: the empty value when the
apiVersion does not parse. -/
def Unstructured.GroupVersionKind (h : Heap) (u : Unstructured) :
    Conversion.GroupVersionKind :=
  match ParseGroupVersion (u.GetAPIVersion h) with
  | .error _ => ⟨"", "", ""⟩
  | .ok gv => gv.WithKind (u.GetKind h)

/-- The method `Unstructured.SetGroupVersionKind`. -/
def Unstructured.SetGroupVersionKind (h : Heap) (u : Unstructured)
    (gvk : Conversion.GroupVersionKind) : Heap × Unstructured :=
  let r := u.SetAPIVersion h gvk.GroupVersion.String
  r.2.SetKind r.1 gvk.Kind

/-- The body of the loop of `Convert` (nop_converter.go, line 39) on one item:
the heap and the item after it. -/
def convertItem (h : Heap) (targetGV : GroupVersion) (item : Unstructured) :
    Heap × Unstructured :=
  item.SetGroupVersionKind h (targetGV.WithKind (item.GroupVersionKind h).Kind)

/-- The loop of `Convert` (nop_converter.go, lines 38-40): the items are taken in
order, each on the heap the items before it have left. -/
def convertItems (h : Heap) (targetGV : GroupVersion) :
    List Unstructured → Heap × List Unstructured
  | [] => (h, [])
  | item :: rest =>
    let r := convertItem h targetGV item
    let rs := convertItems r.1 targetGV rest
    (rs.1, r.2 :: rs.2)

/-- The method `nopConverter.Convert` (nop_converter.go, lines 37-42): the heap
when the call returns, the list `list` points at, which is the list returned,
and the error returned. -/
def Convert (h : Heap) (list : UnstructuredList) (targetGV : GroupVersion) :
    Heap × UnstructuredList × Option String :=
  let rs := convertItems h targetGV list.Items
  (rs.1, { list with Items := rs.2 }, none)

/-- A heap with one item map at address 0, holding the given apiVersion and
kind and a metadata map, which is at address 1 and holds a name. -/
def sampleHeap (apiVersion kind : String) : Heap :=
  { maps := fun a =>
      if a = 0 then
        [("apiVersion", .str apiVersion), ("kind", .str kind), ("metadata", .map 1)]
      else if a = 1 then [("name", .str "x")]
      else []
    next := 2 }

/-- The apiVersion and kind of each item of a list, in order. -/
def apiVersionsAndKinds (h : Heap) (list : UnstructuredList) : List (String × String) :=
  list.Items.map (fun u => (u.GetAPIVersion h, u.GetKind h))

/-- The group and version read back from each item of a list, in order. -/
def groupsAndVersions (h : Heap) (list : UnstructuredList) : List (String × String) :=
  list.Items.map (fun u => ((u.GroupVersionKind h).Group, (u.GroupVersionKind h).Version))

end Conversion

namespace Admission

/-! ## The admission plugin initializer (initializer.go) -/

/-- A `meta.RESTMapper`, kept as an opaque handle. -/
structure RESTMapper where
  id : Nat
deriving DecidableEq, Repr

/-- A `quota.Configuration`, kept as an opaque handle. -/
structure QuotaConfiguration where
  id : Nat
deriving DecidableEq, Repr

/-- PluginInitializer is used for initialization of the generic controlplane
admission plugins (initializer.go, lines 27-30).  Both fields are interfaces; a
nil interface is `none`. -/
structure PluginInitializer where
  RESTMapper : Option Admission.RESTMapper
  QuotaConfiguration : Option Admission.QuotaConfiguration
deriving DecidableEq, Repr

/-- A call made on a plugin through one of the two initialization interfaces. -/
inductive PluginCall where
  /-- The call `SetRESTMapper(m)` of `initializer.WantsRESTMapper`. -/
  | SetRESTMapper (m : Option RESTMapper)
  /-- The call `SetQuotaConfiguration(q)` of `initializer.WantsQuotaConfiguration`. -/
  | SetQuotaConfiguration (q : Option QuotaConfiguration)
deriving DecidableEq, Repr

/-- An `admission.Interface` value as `Initialize` meets it: whether its dynamic
type implements `initializer.WantsRESTMapper` and
`initializer.WantsQuotaConfiguration` (a nil interface implements neither), and
the calls the plugin has received so far, in order. -/
structure Plugin where
  implementsWantsRESTMapper : Bool
  implementsWantsQuotaConfiguration : Bool
  received : List PluginCall
deriving DecidableEq, Repr

/-- The plugin after one more call on it. -/
def Plugin.call (plugin : Plugin) (c : PluginCall) : Plugin :=
  { plugin with received := plugin.received ++ [c] }

/-- PluginInitializer.Initialize (initializer.go, lines 36-44): the plugin when
the call returns. -/
def Initialize (i : PluginInitializer) (plugin : Plugin) : Plugin :=
  let plugin1 :=
    if plugin.implementsWantsRESTMapper then plugin.call (.SetRESTMapper i.RESTMapper)
    else plugin
  if plugin1.implementsWantsQuotaConfiguration then
    plugin1.call (.SetQuotaConfiguration i.QuotaConfiguration)
  else plugin1

/-- An initializer with a mapper and a quota configuration. -/
def sampleInitializer : PluginInitializer := ⟨some ⟨1⟩, some ⟨2⟩⟩

end Admission
/-! # Theorems -/

namespace Controlplane

/-! ## Completion: auxiliary facts -/

theorem defaultPeerInterval_ExtraConfig (c : Config) :
    (defaultPeerInterval c).ExtraConfig = c.ExtraConfig := by
  unfold defaultPeerInterval
  split <;> rfl

theorem beforeReconciler_defaultPeerInterval (deps : Deps) (c : Config)
    (cp : ControlPlaneConfig) (r : IPNet) (ip : NetIP) :
    beforeReconciler deps (defaultPeerInterval c) cp r ip = beforeReconciler deps c cp r ip := by
  simp only [beforeReconciler, defaultPeerInterval_ExtraConfig]

/-- What a returning `Complete` went through. -/
theorem Complete_ok_inv {deps : Deps} {c c' : Config} (h : Complete deps c = .ok c') :
    ∃ cp r ip c4,
      deps.controlPlaneComplete (defaultPeerInterval c).ControlPlane = .ok cp ∧
      deps.ServiceIPRange c.ExtraConfig.ServiceIPRange = .ok (r, ip) ∧
      defaultReconciler deps (beforeReconciler deps c cp r ip) = .ok c4 ∧
      c' = { c4 with ExtraConfig := defaultRepairInterval c4.ExtraConfig } := by
  unfold Complete at h
  simp only [defaultPeerInterval_ExtraConfig, beforeReconciler_defaultPeerInterval] at h
  cases hcp : deps.controlPlaneComplete (defaultPeerInterval c).ControlPlane with
  | error e => simp [hcp] at h
  | ok cp =>
    cases hsr : deps.ServiceIPRange c.ExtraConfig.ServiceIPRange with
    | error e => simp [hcp, hsr] at h
    | ok p =>
      obtain ⟨r, ip⟩ := p
      simp only [hcp, hsr] at h
      cases hdr : defaultReconciler deps (beforeReconciler deps c cp r ip) with
      | error a => simp [hdr] at h
      | ok c4 =>
        simp only [hdr, Except.ok.injEq] at h
        exact ⟨cp, r, ip, c4, rfl, rfl, hdr, h.symm⟩

/-- The outcome of `Complete` once the generic completion and the service IP
range computation have returned. -/
theorem Complete_of_steps {deps : Deps} {c : Config} {cp : ControlPlaneConfig}
    {r : IPNet} {ip : NetIP}
    (hcp : deps.controlPlaneComplete (defaultPeerInterval c).ControlPlane = .ok cp)
    (hsr : deps.ServiceIPRange c.ExtraConfig.ServiceIPRange = .ok (r, ip)) :
    Complete deps c =
      match defaultReconciler deps (beforeReconciler deps c cp r ip) with
      | .error a => .error a
      | .ok c4 => .ok { c4 with ExtraConfig := defaultRepairInterval c4.ExtraConfig } := by
  unfold Complete
  simp only [defaultPeerInterval_ExtraConfig, beforeReconciler_defaultPeerInterval, hcp, hsr]

/-- The defaulting of lines 264-292 written out field by field. -/
theorem extra_defaults_eq (deps : Deps) (r : IPNet) (ip : NetIP) (x : ExtraConfig) :
    defaultTTL (defaultInterval (defaultNodePortRange deps (defaultServiceIP r ip x))) =
      { x with
        EndpointReconcilerConfig :=
          { Reconciler := x.EndpointReconcilerConfig.Reconciler
            Interval := if x.EndpointReconcilerConfig.Interval = 0
              then DefaultEndpointReconcilerInterval else x.EndpointReconcilerConfig.Interval }
        ServiceIPRange := if x.ServiceIPRange.IP = none then r else x.ServiceIPRange
        APIServerServiceIP := if x.APIServerServiceIP = none then ip else x.APIServerServiceIP
        ServiceNodePortRange := if x.ServiceNodePortRange.Size = 0
          then deps.DefaultServiceNodePortRange else x.ServiceNodePortRange
        MasterEndpointReconcileTTL := if x.MasterEndpointReconcileTTL = 0
          then DefaultEndpointReconcilerTTL else x.MasterEndpointReconcileTTL } := by
  obtain ⟨⟨rec, itv⟩, k, sr, sip, ssr, ssip, port, npr, knp, mc, ttl, ty, rep⟩ := x
  unfold defaultTTL defaultInterval defaultNodePortRange defaultServiceIP
  by_cases h1 : sr.IP = none <;> by_cases h2 : sip = none <;> by_cases h3 : npr.Size = 0 <;>
    by_cases h4 : itv = 0 <;> by_cases h5 : ttl = 0 <;> simp [h1, h2, h3, h4, h5]


theorem beforeReconciler_type (deps : Deps) (c : Config) (cp : ControlPlaneConfig) (r : IPNet)
    (ip : NetIP) :
    (beforeReconciler deps c cp r ip).ExtraConfig.EndpointReconcilerType
      = c.ExtraConfig.EndpointReconcilerType := by
  simp [beforeReconciler, extra_defaults_eq]

theorem beforeReconciler_reconciler (deps : Deps) (c : Config) (cp : ControlPlaneConfig)
    (r : IPNet) (ip : NetIP) :
    (beforeReconciler deps c cp r ip).ExtraConfig.EndpointReconcilerConfig.Reconciler
      = c.ExtraConfig.EndpointReconcilerConfig.Reconciler := by
  simp [beforeReconciler, extra_defaults_eq]

theorem beforeReconciler_masterCount (deps : Deps) (c : Config) (cp : ControlPlaneConfig)
    (r : IPNet) (ip : NetIP) :
    (beforeReconciler deps c cp r ip).ExtraConfig.MasterCount = c.ExtraConfig.MasterCount := by
  simp [beforeReconciler, extra_defaults_eq]

theorem beforeReconciler_loopback (deps : Deps) (c : Config) (cp : ControlPlaneConfig)
    (r : IPNet) (ip : NetIP) :
    (beforeReconciler deps c cp r ip).ControlPlane.Generic.LoopbackClientConfig
      = cp.Generic.LoopbackClientConfig := by
  simp [beforeReconciler, overrideDiscoveryAddresses, setDiscoveryAddresses]

/-- What a returning `defaultReconciler` did. -/
theorem defaultReconciler_ok_inv {deps : Deps} {c c4 : Config}
    (h : defaultReconciler deps c = .ok c4) :
    ∃ rec, c4 = withReconciler c rec ∧
      (c.ExtraConfig.EndpointReconcilerConfig.Reconciler = some rec ∨
        (c.ExtraConfig.EndpointReconcilerConfig.Reconciler = none ∧
          createEndpointReconciler deps c = .ok rec)) := by
  unfold defaultReconciler at h
  cases hr : c.ExtraConfig.EndpointReconcilerConfig.Reconciler with
  | some rec =>
    simp only [hr, Except.ok.injEq] at h
    refine ⟨rec, ?_, Or.inl rfl⟩
    subst h
    obtain ⟨cp, ⟨⟨rec0, itv⟩, k, sr, sip, ssr, ssip, port, npr, knp, mc, ttl, ty, rep⟩⟩ := c
    simp only at hr
    simp [withReconciler, hr]
  | none =>
    simp only [hr] at h
    cases hc : createEndpointReconciler deps c with
    | error a => simp [hc] at h
    | ok rec =>
      simp only [hc, Except.ok.injEq] at h
      exact ⟨rec, h.symm, Or.inr ⟨rfl, rfl⟩⟩

theorem defaultReconciler_error {deps : Deps} {c : Config} {a : Abort}
    (hunset : c.ExtraConfig.EndpointReconcilerConfig.Reconciler = none)
    (h : createEndpointReconciler deps c = .error a) : defaultReconciler deps c = .error a := by
  simp [defaultReconciler, hunset, h]

theorem defaultReconciler_unset {deps : Deps} {c : Config} {rec : EndpointReconciler}
    (hunset : c.ExtraConfig.EndpointReconcilerConfig.Reconciler = none)
    (h : createEndpointReconciler deps c = .ok rec) :
    defaultReconciler deps c = .ok (withReconciler c rec) := by
  simp [defaultReconciler, hunset, h]

theorem defaultReconciler_preset {deps : Deps} {c : Config} {rec : EndpointReconciler}
    (hset : c.ExtraConfig.EndpointReconcilerConfig.Reconciler = some rec) :
    defaultReconciler deps c = .ok c := by
  simp [defaultReconciler, hset]

/-- A returning `Complete`, in terms of the caller's configuration: the
collaborators returned, the reconciler is the caller's or the one
`createEndpointReconciler` built, and the completed configuration is the
configuration of line 294 with that reconciler and the repair interval. -/
theorem Complete_ok_shape {deps : Deps} {c c' : Config} (h : Complete deps c = .ok c') :
    ∃ cp r ip rec,
      deps.controlPlaneComplete (defaultPeerInterval c).ControlPlane = .ok cp ∧
      deps.ServiceIPRange c.ExtraConfig.ServiceIPRange = .ok (r, ip) ∧
      (c.ExtraConfig.EndpointReconcilerConfig.Reconciler = some rec ∨
        (c.ExtraConfig.EndpointReconcilerConfig.Reconciler = none ∧
          createEndpointReconciler deps (beforeReconciler deps c cp r ip) = .ok rec)) ∧
      c' = { ControlPlane := (beforeReconciler deps c cp r ip).ControlPlane
             ExtraConfig := defaultRepairInterval
               (withReconciler (beforeReconciler deps c cp r ip) rec).ExtraConfig } := by
  obtain ⟨cp, r, ip, c4, hcp, hsr, hdr, hc'⟩ := Complete_ok_inv h
  obtain ⟨rec, hc4, hrec⟩ := defaultReconciler_ok_inv hdr
  refine ⟨cp, r, ip, rec, hcp, hsr, ?_, ?_⟩
  · rw [beforeReconciler_reconciler] at hrec
    exact hrec
  · rw [hc', hc4]
    rfl

/-! ## Reconciler selection -/

theorem createMasterCountReconciler_variant {deps : Deps} {c : Config} {r : EndpointReconciler}
    (h : createMasterCountReconciler deps c = .ok r) : r.variant = some .MasterCount := by
  unfold createMasterCountReconciler at h
  cases ha : newEndpointsAdapter deps c with
  | error a => simp [ha] at h
  | ok a =>
    simp only [ha, Except.ok.injEq] at h
    subst h
    rfl

theorem createLeaseReconciler_variant {deps : Deps} {c : Config} {r : EndpointReconciler}
    (h : createLeaseReconciler deps c = .ok r) : r.variant = some .Lease := by
  unfold createLeaseReconciler at h
  cases ha : newEndpointsAdapter deps c with
  | error a => simp [ha] at h
  | ok a =>
    cases hs : deps.storageNewConfig c.ControlPlane.StorageFactory "apiServerIPInfo" with
    | error e => simp [ha, hs] at h
    | ok cfg =>
      cases hl : deps.NewLeases cfg "/masterleases/" c.ExtraConfig.MasterEndpointReconcileTTL with
      | error e => simp [ha, hs, hl] at h
      | ok l =>
        simp only [ha, hs, hl, Except.ok.injEq] at h
        subst h
        rfl

theorem createNoneReconciler_variant {deps : Deps} {c : Config} {r : EndpointReconciler}
    (h : createNoneReconciler deps c = .ok r) : r.variant = some .None := by
  simp only [createNoneReconciler, Except.ok.injEq] at h
  subst h
  rfl

theorem createEndpointReconciler_masterCount {deps : Deps} {c : Config}
    (h : c.ExtraConfig.EndpointReconcilerType = MasterCountReconcilerType) :
    createEndpointReconciler deps c = createMasterCountReconciler deps c := by
  simp [createEndpointReconciler, h]

theorem createEndpointReconciler_lease {deps : Deps} {c : Config}
    (h : c.ExtraConfig.EndpointReconcilerType = LeaseEndpointReconcilerType) :
    createEndpointReconciler deps c = createLeaseReconciler deps c := by
  simp [createEndpointReconciler, h, LeaseEndpointReconcilerType, MasterCountReconcilerType]

theorem createEndpointReconciler_empty {deps : Deps} {c : Config}
    (h : c.ExtraConfig.EndpointReconcilerType = "") :
    createEndpointReconciler deps c = createLeaseReconciler deps c := by
  simp [createEndpointReconciler, h, MasterCountReconcilerType]

theorem createEndpointReconciler_none {deps : Deps} {c : Config}
    (h : c.ExtraConfig.EndpointReconcilerType = NoneEndpointReconcilerType) :
    createEndpointReconciler deps c = createNoneReconciler deps c := by
  simp [createEndpointReconciler, h, LeaseEndpointReconcilerType, MasterCountReconcilerType,
    NoneEndpointReconcilerType]

theorem createEndpointReconciler_unknown {deps : Deps} {c : Config}
    (h1 : c.ExtraConfig.EndpointReconcilerType ≠ MasterCountReconcilerType)
    (h2 : c.ExtraConfig.EndpointReconcilerType ≠ LeaseEndpointReconcilerType)
    (h3 : c.ExtraConfig.EndpointReconcilerType ≠ NoneEndpointReconcilerType)
    (h4 : c.ExtraConfig.EndpointReconcilerType ≠ "") :
    createEndpointReconciler deps c
      = .error (.fatal ("Reconciler not implemented: " ++ c.ExtraConfig.EndpointReconcilerType)) := by
  simp [createEndpointReconciler, h1, h2, h3, h4]

/-- The reconciler `createEndpointReconciler` returns is one of the three of
package `reconcilers`, as the type string says. -/
theorem createEndpointReconciler_variant {deps : Deps} {c : Config} {r : EndpointReconciler}
    (h : createEndpointReconciler deps c = .ok r) :
    r.variant = specSelection c.ExtraConfig.EndpointReconcilerType := by
  by_cases h1 : c.ExtraConfig.EndpointReconcilerType = MasterCountReconcilerType
  · rw [createEndpointReconciler_masterCount h1] at h
    rw [createMasterCountReconciler_variant h, h1]
    rfl
  · by_cases h2 : c.ExtraConfig.EndpointReconcilerType = LeaseEndpointReconcilerType
    · rw [createEndpointReconciler_lease h2] at h
      rw [createLeaseReconciler_variant h, h2]
      rfl
    · by_cases h3 : c.ExtraConfig.EndpointReconcilerType = NoneEndpointReconcilerType
      · rw [createEndpointReconciler_none h3] at h
        rw [createNoneReconciler_variant h, h3]
        rfl
      · by_cases h4 : c.ExtraConfig.EndpointReconcilerType = ""
        · rw [createEndpointReconciler_empty h4] at h
          rw [createLeaseReconciler_variant h, h4]
          rfl
        · rw [createEndpointReconciler_unknown h1 h2 h3 h4] at h
          cases h

theorem defaultRepairInterval_reconcilerConfig (x : ExtraConfig) :
    (defaultRepairInterval x).EndpointReconcilerConfig = x.EndpointReconcilerConfig := by
  unfold defaultRepairInterval
  split <;> rfl

/-- The reconciler of a completed configuration whose reconciler was unset is
the one `createEndpointReconciler` built at line 295. -/
theorem Complete_unset_reconciler {deps : Deps} {c c' : Config}
    (hunset : c.ExtraConfig.EndpointReconcilerConfig.Reconciler = none)
    (h : Complete deps c = .ok c') :
    ∃ cp r ip rec,
      deps.controlPlaneComplete (defaultPeerInterval c).ControlPlane = .ok cp ∧
      deps.ServiceIPRange c.ExtraConfig.ServiceIPRange = .ok (r, ip) ∧
      createEndpointReconciler deps (beforeReconciler deps c cp r ip) = .ok rec ∧
      c'.ExtraConfig.EndpointReconcilerConfig.Reconciler = some rec := by
  obtain ⟨cp, r, ip, rec, hcp, hsr, hrec, hc'⟩ := Complete_ok_shape h
  rcases hrec with hrec | ⟨_, hrec⟩
  · rw [hunset] at hrec
    cases hrec
  · refine ⟨cp, r, ip, rec, hcp, hsr, hrec, ?_⟩
    rw [hc']
    simp [defaultRepairInterval_reconcilerConfig, withReconciler]

/-- When the collaborators return and `createEndpointReconciler` builds a
reconciler for an unset `Reconciler`, `Complete` returns. -/
theorem Complete_unset_of_steps {deps : Deps} {c : Config} {cp : ControlPlaneConfig}
    {r : IPNet} {ip : NetIP} {rec : EndpointReconciler}
    (hunset : c.ExtraConfig.EndpointReconcilerConfig.Reconciler = none)
    (hcp : deps.controlPlaneComplete (defaultPeerInterval c).ControlPlane = .ok cp)
    (hsr : deps.ServiceIPRange c.ExtraConfig.ServiceIPRange = .ok (r, ip))
    (hrec : createEndpointReconciler deps (beforeReconciler deps c cp r ip) = .ok rec) :
    Complete deps c = .ok
      { ControlPlane := (beforeReconciler deps c cp r ip).ControlPlane
        ExtraConfig := defaultRepairInterval
          (withReconciler (beforeReconciler deps c cp r ip) rec).ExtraConfig } := by
  rw [Complete_of_steps hcp hsr, defaultReconciler_unset
    ((beforeReconciler_reconciler deps c cp r ip).trans hunset) hrec]
  rfl

/-- When the collaborators return and the caller has set a reconciler,
`Complete` returns. -/
theorem Complete_preset_of_steps {deps : Deps} {c : Config} {cp : ControlPlaneConfig}
    {r : IPNet} {ip : NetIP} {rec : EndpointReconciler}
    (hset : c.ExtraConfig.EndpointReconcilerConfig.Reconciler = some rec)
    (hcp : deps.controlPlaneComplete (defaultPeerInterval c).ControlPlane = .ok cp)
    (hsr : deps.ServiceIPRange c.ExtraConfig.ServiceIPRange = .ok (r, ip)) :
    Complete deps c = .ok
      { ControlPlane := (beforeReconciler deps c cp r ip).ControlPlane
        ExtraConfig := defaultRepairInterval (beforeReconciler deps c cp r ip).ExtraConfig } := by
  rw [Complete_of_steps hcp hsr, defaultReconciler_preset
    ((beforeReconciler_reconciler deps c cp r ip).trans hset)]

/-- C1: for a configuration whose `Reconciler` is unset, `createEndpointReconciler`
dispatches on `EndpointReconcilerType`: `"master-count"` runs
`createMasterCountReconciler`, `"lease"` and the empty string run
`createLeaseReconciler`, `"none"` runs `createNoneReconciler`; these build a
MasterCount, a Lease and a None reconciler, and do return when the clients, the
storage configuration and the lease store they ask for are built; and the
reconciler of the configuration `Complete` returns is of the variant the type
string names. -/
theorem createEndpointReconciler_selects (deps : Deps) (c : Config)
    (hunset : c.ExtraConfig.EndpointReconcilerConfig.Reconciler = none) :
    (c.ExtraConfig.EndpointReconcilerType = "master-count" →
      createEndpointReconciler deps c = createMasterCountReconciler deps c) ∧
    (c.ExtraConfig.EndpointReconcilerType = "lease" →
      createEndpointReconciler deps c = createLeaseReconciler deps c) ∧
    (c.ExtraConfig.EndpointReconcilerType = "none" →
      createEndpointReconciler deps c = createNoneReconciler deps c) ∧
    (c.ExtraConfig.EndpointReconcilerType = "" →
      createEndpointReconciler deps c = createLeaseReconciler deps c) ∧
    (∀ r, createMasterCountReconciler deps c = .ok r → r.variant = some .MasterCount) ∧
    (∀ r, createLeaseReconciler deps c = .ok r → r.variant = some .Lease) ∧
    (∀ r, createNoneReconciler deps c = .ok r → r.variant = some .None) ∧
    (∀ a, newEndpointsAdapter deps c = .ok a →
      createMasterCountReconciler deps c = .ok (.masterCount c.ExtraConfig.MasterCount a)) ∧
    (∀ a cfg l, newEndpointsAdapter deps c = .ok a →
      deps.storageNewConfig c.ControlPlane.StorageFactory "apiServerIPInfo" = .ok cfg →
      deps.NewLeases cfg "/masterleases/" c.ExtraConfig.MasterEndpointReconcileTTL = .ok l →
      createLeaseReconciler deps c = .ok (.lease a l)) ∧
    createNoneReconciler deps c = .ok .noneReconciler ∧
    (∀ c', Complete deps c = .ok c' →
      ∃ r, c'.ExtraConfig.EndpointReconcilerConfig.Reconciler = some r ∧
        r.variant = specSelection c.ExtraConfig.EndpointReconcilerType) := by
  refine ⟨fun h => createEndpointReconciler_masterCount h,
    fun h => createEndpointReconciler_lease h,
    fun h => createEndpointReconciler_none h,
    fun h => createEndpointReconciler_empty h,
    fun r h => createMasterCountReconciler_variant h,
    fun r h => createLeaseReconciler_variant h,
    fun r h => createNoneReconciler_variant h, ?_, ?_, rfl, ?_⟩
  · intro a ha
    simp [createMasterCountReconciler, ha]
  · intro a cfg l ha hs hl
    simp [createLeaseReconciler, ha, hs, hl]
  · intro c' h
    obtain ⟨cp, r, ip, rec, _, _, hrec, hc'⟩ := Complete_unset_reconciler hunset h
    refine ⟨rec, hc', ?_⟩
    rw [createEndpointReconciler_variant hrec, beforeReconciler_type]

/-- C1, at the sample configuration: its reconciler is unset and its type is the
empty string, so the lease reconciler is built. -/
theorem createEndpointReconciler_selects_witness :
    sampleConfig.ExtraConfig.EndpointReconcilerConfig.Reconciler = none ∧
    createEndpointReconciler sampleDeps sampleConfig
      = createLeaseReconciler sampleDeps sampleConfig ∧
    createLeaseReconciler sampleDeps sampleConfig = .ok (.lease ⟨⟨1⟩, ⟨1⟩⟩ ⟨7⟩) :=
  ⟨rfl, (createEndpointReconciler_selects sampleDeps sampleConfig rfl).2.2.2.1 rfl, rfl⟩

/-- C2, as stated, fails: a configuration that carries a reconciler of the
caller's own and the type string `"bogus"` is completed, and keeps that
reconciler. -/
theorem Complete_unknown_type_preset_returns :
    presetReconcilerConfig.ExtraConfig.EndpointReconcilerType ≠ "master-count" ∧
    presetReconcilerConfig.ExtraConfig.EndpointReconcilerType ≠ "lease" ∧
    presetReconcilerConfig.ExtraConfig.EndpointReconcilerType ≠ "none" ∧
    presetReconcilerConfig.ExtraConfig.EndpointReconcilerType ≠ "" ∧
    ∃ c', Complete sampleDeps presetReconcilerConfig = .ok c' ∧
      c'.ExtraConfig.EndpointReconcilerConfig.Reconciler = some (.other 0) ∧
      c'.ExtraConfig.EndpointReconcilerType = "bogus" :=
  ⟨by decide, by decide, by decide, by decide, _, rfl, rfl, rfl⟩

/-- C2, amended: for a configuration whose `Reconciler` is unset and whose
`EndpointReconcilerType` is none of `"master-count"`, `"lease"`, `"none"` and the
empty string, `Complete` aborts and returns no completed configuration; when the
generic completion and the service IP range computation return, the abort is the
fatal `Reconciler not implemented` of line 243. -/
theorem Complete_unknown_type_aborts (deps : Deps) (c : Config)
    (hunset : c.ExtraConfig.EndpointReconcilerConfig.Reconciler = none)
    (h1 : c.ExtraConfig.EndpointReconcilerType ≠ "master-count")
    (h2 : c.ExtraConfig.EndpointReconcilerType ≠ "lease")
    (h3 : c.ExtraConfig.EndpointReconcilerType ≠ "none")
    (h4 : c.ExtraConfig.EndpointReconcilerType ≠ "") :
    (∃ a, Complete deps c = .error a) ∧
    (∀ cp r ip, deps.controlPlaneComplete (defaultPeerInterval c).ControlPlane = .ok cp →
      deps.ServiceIPRange c.ExtraConfig.ServiceIPRange = .ok (r, ip) →
      Complete deps c = .error
        (.fatal ("Reconciler not implemented: " ++ c.ExtraConfig.EndpointReconcilerType))) := by
  have key : ∀ cp r ip, createEndpointReconciler deps (beforeReconciler deps c cp r ip)
      = .error (.fatal ("Reconciler not implemented: " ++ c.ExtraConfig.EndpointReconcilerType)) := by
    intro cp r ip
    have := @createEndpointReconciler_unknown deps (beforeReconciler deps c cp r ip)
      (by rw [beforeReconciler_type]; exact h1) (by rw [beforeReconciler_type]; exact h2)
      (by rw [beforeReconciler_type]; exact h3) (by rw [beforeReconciler_type]; exact h4)
    rw [this, beforeReconciler_type]
  constructor
  · cases hc : Complete deps c with
    | error a => exact ⟨a, rfl⟩
    | ok c' =>
      obtain ⟨cp, r, ip, rec, _, _, hrec, _⟩ := Complete_unset_reconciler hunset hc
      rw [key] at hrec
      cases hrec
  · intro cp r ip hcp hsr
    rw [Complete_of_steps hcp hsr, defaultReconciler_error
      ((beforeReconciler_reconciler deps c cp r ip).trans hunset) (key cp r ip)]

/-- C2 amended, at the sample configuration with the type string `"bogus"`. -/
theorem Complete_unknown_type_aborts_witness :
    (sampleConfigOfType "bogus").ExtraConfig.EndpointReconcilerConfig.Reconciler = none ∧
    Complete sampleDeps (sampleConfigOfType "bogus")
      = .error (.fatal "Reconciler not implemented: bogus") :=
  ⟨rfl, (Complete_unknown_type_aborts sampleDeps (sampleConfigOfType "bogus") rfl
    (by decide) (by decide) (by decide) (by decide)).2 _ _ _ rfl rfl⟩

theorem createMasterCountReconciler_ok_inv {deps : Deps} {c : Config} {rec : EndpointReconciler}
    (h : createMasterCountReconciler deps c = .ok rec) :
    ∃ a, newEndpointsAdapter deps c = .ok a ∧ rec = .masterCount c.ExtraConfig.MasterCount a := by
  unfold createMasterCountReconciler at h
  cases ha : newEndpointsAdapter deps c with
  | error e => simp [ha] at h
  | ok a =>
    simp only [ha, Except.ok.injEq] at h
    exact ⟨a, rfl, h.symm⟩

theorem newEndpointsAdapter_of_clients {deps : Deps} {c : Config} {ec : CoreV1Client}
    {esc : DiscoveryV1Client}
    (h1 : deps.corev1NewForConfig c.ControlPlane.Generic.LoopbackClientConfig = .ok ec)
    (h2 : deps.discoveryNewForConfig c.ControlPlane.Generic.LoopbackClientConfig = .ok esc) :
    newEndpointsAdapter deps c = .ok ⟨ec, esc⟩ := by
  simp [newEndpointsAdapter, h1, h2]

/-- C3, as stated, fails: the sample configuration with the type string
`"master-count"` and `MasterCount = 0` is completed, with a MasterCount
reconciler of count 0. -/
theorem Complete_masterCount_zero_returns :
    (masterCountConfig 0).ExtraConfig.EndpointReconcilerType = "master-count" ∧
    (masterCountConfig 0).ExtraConfig.MasterCount ≤ 0 ∧
    ∃ c', Complete sampleDeps (masterCountConfig 0) = .ok c' ∧
      c'.ExtraConfig.EndpointReconcilerConfig.Reconciler
        = some (.masterCount 0 ⟨⟨1⟩, ⟨1⟩⟩) :=
  ⟨rfl, by decide, _, rfl, rfl⟩

/-- C3, amended: `Complete` does not inspect `MasterCount`.  For a configuration
with the type string `"master-count"` and an unset `Reconciler`, whatever
`MasterCount` is (also zero or negative): a returning `Complete` has built the
MasterCount reconciler with the caller's `MasterCount`; and `Complete` does
return once the generic completion, the service IP range computation and the two
client constructors return. -/
theorem Complete_masterCount_unchecked (deps : Deps) (c : Config)
    (htype : c.ExtraConfig.EndpointReconcilerType = "master-count")
    (hunset : c.ExtraConfig.EndpointReconcilerConfig.Reconciler = none) :
    (∀ c', Complete deps c = .ok c' →
      ∃ a, c'.ExtraConfig.EndpointReconcilerConfig.Reconciler
        = some (.masterCount c.ExtraConfig.MasterCount a)) ∧
    (∀ cp r ip ec esc,
      deps.controlPlaneComplete (defaultPeerInterval c).ControlPlane = .ok cp →
      deps.ServiceIPRange c.ExtraConfig.ServiceIPRange = .ok (r, ip) →
      deps.corev1NewForConfig cp.Generic.LoopbackClientConfig = .ok ec →
      deps.discoveryNewForConfig cp.Generic.LoopbackClientConfig = .ok esc →
      ∃ c', Complete deps c = .ok c' ∧
        c'.ExtraConfig.EndpointReconcilerConfig.Reconciler
          = some (.masterCount c.ExtraConfig.MasterCount ⟨ec, esc⟩)) := by
  have hty : ∀ cp r ip,
      (beforeReconciler deps c cp r ip).ExtraConfig.EndpointReconcilerType
        = MasterCountReconcilerType := fun cp r ip =>
    (beforeReconciler_type deps c cp r ip).trans htype
  constructor
  · intro c' h
    obtain ⟨cp, r, ip, rec, _, _, hrec, hc'⟩ := Complete_unset_reconciler hunset h
    rw [createEndpointReconciler_masterCount (hty cp r ip)] at hrec
    obtain ⟨a, _, ha⟩ := createMasterCountReconciler_ok_inv hrec
    rw [beforeReconciler_masterCount] at ha
    exact ⟨a, by rw [hc', ha]⟩
  · intro cp r ip ec esc hcp hsr hec hesc
    have hadapter : newEndpointsAdapter deps (beforeReconciler deps c cp r ip) = .ok ⟨ec, esc⟩ :=
      newEndpointsAdapter_of_clients (by rw [beforeReconciler_loopback]; exact hec)
        (by rw [beforeReconciler_loopback]; exact hesc)
    have hcreate : createEndpointReconciler deps (beforeReconciler deps c cp r ip)
        = .ok (.masterCount c.ExtraConfig.MasterCount ⟨ec, esc⟩) := by
      rw [createEndpointReconciler_masterCount (hty cp r ip)]
      simp [createMasterCountReconciler, hadapter, beforeReconciler_masterCount]
    refine ⟨_, Complete_unset_of_steps hunset hcp hsr hcreate, ?_⟩
    simp [defaultRepairInterval_reconcilerConfig, withReconciler]

/-- C3 amended, at the sample configuration with the master-count strategy and
the count -1. -/
theorem Complete_masterCount_unchecked_witness :
    (masterCountConfig (-1)).ExtraConfig.EndpointReconcilerType = "master-count" ∧
    (masterCountConfig (-1)).ExtraConfig.EndpointReconcilerConfig.Reconciler = none ∧
    ∃ c', Complete sampleDeps (masterCountConfig (-1)) = .ok c' ∧
      c'.ExtraConfig.EndpointReconcilerConfig.Reconciler
        = some (.masterCount (-1) ⟨⟨1⟩, ⟨1⟩⟩) :=
  ⟨rfl, rfl, (Complete_masterCount_unchecked sampleDeps (masterCountConfig (-1)) rfl rfl).2
    _ _ _ _ _ rfl rfl rfl rfl⟩

/-! ## Instance construction -/

/-- C4: for a completed configuration whose `KubeletClientConfig` is the zero
value, `New` returns a nil instance together with the error of line 311, and has
made no call on any collaborator: the control plane is not built, no API is
installed and no hook is registered. -/
theorem New_zero_KubeletClientConfig (deps : NewDeps) (c : Config)
    (delegationTarget : DelegationTarget)
    (hzero : c.ExtraConfig.KubeletClientConfig = KubeletClientConfig.zero) :
    (New deps c delegationTarget).result
      = .returned none (some "Master.New() called with empty config.KubeletClientConfig") ∧
    (New deps c delegationTarget).actions = [] := by
  simp [New, hzero]

/-- C4, at the sample configuration with the zero kubelet client configuration. -/
theorem New_zero_KubeletClientConfig_witness :
    zeroKubeletConfig.ExtraConfig.KubeletClientConfig = KubeletClientConfig.zero ∧
    (New sampleNewDeps zeroKubeletConfig ⟨3⟩).result
      = .returned none (some "Master.New() called with empty config.KubeletClientConfig") ∧
    (New sampleNewDeps zeroKubeletConfig ⟨3⟩).actions = [] :=
  ⟨rfl, New_zero_KubeletClientConfig sampleNewDeps zeroKubeletConfig ⟨3⟩ rfl⟩

/-! ## Completion: the defaults -/

/-- The `ExtraConfig` of a completed configuration, field by field, and its
control-plane part. -/
theorem Complete_ok_fields {deps : Deps} {c c' : Config} (h : Complete deps c = .ok c') :
    ∃ cp r ip rec,
      deps.controlPlaneComplete (defaultPeerInterval c).ControlPlane = .ok cp ∧
      deps.ServiceIPRange c.ExtraConfig.ServiceIPRange = .ok (r, ip) ∧
      (c.ExtraConfig.EndpointReconcilerConfig.Reconciler = some rec ∨
        (c.ExtraConfig.EndpointReconcilerConfig.Reconciler = none ∧
          createEndpointReconciler deps (beforeReconciler deps c cp r ip) = .ok rec)) ∧
      c'.ControlPlane
        = overrideDiscoveryAddresses deps cp (defaultServiceIP r ip c.ExtraConfig) ∧
      c'.ExtraConfig =
        { c.ExtraConfig with
          EndpointReconcilerConfig :=
            { Reconciler := some rec
              Interval := if c.ExtraConfig.EndpointReconcilerConfig.Interval = 0
                then DefaultEndpointReconcilerInterval
                else c.ExtraConfig.EndpointReconcilerConfig.Interval }
          ServiceIPRange :=
            if c.ExtraConfig.ServiceIPRange.IP = none then r else c.ExtraConfig.ServiceIPRange
          APIServerServiceIP :=
            if c.ExtraConfig.APIServerServiceIP = none then ip
            else c.ExtraConfig.APIServerServiceIP
          ServiceNodePortRange := if c.ExtraConfig.ServiceNodePortRange.Size = 0
            then deps.DefaultServiceNodePortRange else c.ExtraConfig.ServiceNodePortRange
          MasterEndpointReconcileTTL := if c.ExtraConfig.MasterEndpointReconcileTTL = 0
            then DefaultEndpointReconcilerTTL else c.ExtraConfig.MasterEndpointReconcileTTL
          RepairServicesInterval := if c.ExtraConfig.RepairServicesInterval = 0
            then repairLoopInterval else c.ExtraConfig.RepairServicesInterval } := by
  obtain ⟨cp, r, ip, rec, hcp, hsr, hrec, hc'⟩ := Complete_ok_shape h
  refine ⟨cp, r, ip, rec, hcp, hsr, hrec, by rw [hc']; rfl, ?_⟩
  rw [hc']
  simp only [withReconciler, beforeReconciler, extra_defaults_eq, defaultRepairInterval]
  split <;> rfl

/-- C5: in the configuration `Complete` returns, the endpoint reconciler interval
is the caller's if that was non-zero and 10 seconds otherwise, the master
endpoint reconcile TTL is the caller's if non-zero and 15 seconds otherwise, the
repair interval is the caller's if non-zero and 3 minutes otherwise, and the
node-port range is the caller's if its size was non-zero and the default
node-port range otherwise. -/
theorem Complete_defaults (deps : Deps) (c c' : Config) (h : Complete deps c = .ok c') :
    c'.ExtraConfig.EndpointReconcilerConfig.Interval
      = (if c.ExtraConfig.EndpointReconcilerConfig.Interval ≠ 0
          then c.ExtraConfig.EndpointReconcilerConfig.Interval else 10 * Second) ∧
    c'.ExtraConfig.MasterEndpointReconcileTTL
      = (if c.ExtraConfig.MasterEndpointReconcileTTL ≠ 0
          then c.ExtraConfig.MasterEndpointReconcileTTL else 15 * Second) ∧
    c'.ExtraConfig.RepairServicesInterval
      = (if c.ExtraConfig.RepairServicesInterval ≠ 0
          then c.ExtraConfig.RepairServicesInterval else 3 * Minute) ∧
    c'.ExtraConfig.ServiceNodePortRange
      = (if c.ExtraConfig.ServiceNodePortRange.Size ≠ 0
          then c.ExtraConfig.ServiceNodePortRange else deps.DefaultServiceNodePortRange) := by
  obtain ⟨cp, r, ip, rec, _, _, _, _, hx⟩ := Complete_ok_fields h
  rw [hx]
  refine ⟨?_, ?_, ?_, ?_⟩ <;> simp only [ne_eq, ite_not] <;> rfl

/-- C5, at the sample configuration, where all four fields are unset. -/
theorem Complete_defaults_witness :
    ∃ c', Complete sampleDeps sampleConfig = .ok c' ∧
      c'.ExtraConfig.EndpointReconcilerConfig.Interval = 10 * Second ∧
      c'.ExtraConfig.MasterEndpointReconcileTTL = 15 * Second ∧
      c'.ExtraConfig.RepairServicesInterval = 3 * Minute ∧
      c'.ExtraConfig.ServiceNodePortRange = ⟨30000, 2768⟩ :=
  ⟨_, rfl, Complete_defaults sampleDeps sampleConfig _ rfl⟩

/-! ## Completion: idempotence -/

theorem defaultPeerInterval_of_ne {c : Config}
    (h : c.ControlPlane.PeerEndpointReconcileInterval ≠ 0) : defaultPeerInterval c = c := by
  simp [defaultPeerInterval, h]

theorem defaultServiceIP_of_ne {r : IPNet} {ip : NetIP} {x : ExtraConfig}
    (h1 : x.ServiceIPRange.IP ≠ none) (h2 : x.APIServerServiceIP ≠ none) :
    defaultServiceIP r ip x = x := by
  simp [defaultServiceIP, h1, h2]

theorem defaultServiceIP_range (r : IPNet) (ip : NetIP) (x : ExtraConfig) :
    (defaultServiceIP r ip x).ServiceIPRange
      = if x.ServiceIPRange.IP = none then r else x.ServiceIPRange := by
  unfold defaultServiceIP
  by_cases h1 : x.ServiceIPRange.IP = none <;> by_cases h2 : x.APIServerServiceIP = none <;>
    simp [h1, h2]

theorem defaultServiceIP_ip (r : IPNet) (ip : NetIP) (x : ExtraConfig) :
    (defaultServiceIP r ip x).APIServerServiceIP
      = if x.APIServerServiceIP = none then ip else x.APIServerServiceIP := by
  unfold defaultServiceIP
  by_cases h1 : x.ServiceIPRange.IP = none <;> by_cases h2 : x.APIServerServiceIP = none <;>
    simp [h1, h2]

theorem defaultServiceIP_port (r : IPNet) (ip : NetIP) (x : ExtraConfig) :
    (defaultServiceIP r ip x).APIServerServicePort = x.APIServerServicePort := by
  unfold defaultServiceIP
  by_cases h1 : x.ServiceIPRange.IP = none <;> by_cases h2 : x.APIServerServiceIP = none <;>
    simp [h1, h2]

/-- The defaulting of lines 277-300 changes nothing where the three durations
are non-zero and a node-port range of size zero is the default one. -/
theorem defaults_fixed {deps : Deps} {x : ExtraConfig}
    (h1 : x.EndpointReconcilerConfig.Interval ≠ 0)
    (h2 : x.MasterEndpointReconcileTTL ≠ 0)
    (h3 : x.RepairServicesInterval ≠ 0)
    (h4 : x.ServiceNodePortRange.Size = 0 → x.ServiceNodePortRange = deps.DefaultServiceNodePortRange) :
    defaultRepairInterval (defaultTTL (defaultInterval (defaultNodePortRange deps x))) = x := by
  obtain ⟨⟨rec, itv⟩, k, sr, sip, ssr, ssip, port, npr, knp, mc, ttl, ty, rep⟩ := x
  simp only at h1 h2 h3 h4
  unfold defaultRepairInterval defaultTTL defaultInterval defaultNodePortRange
  by_cases h : npr.Size = 0
  · simp [h, h1, h2, h3, (h4 h).symm]
  · simp [h, h1, h2, h3]

theorem DefaultEndpointReconcilerInterval_ne_zero : DefaultEndpointReconcilerInterval ≠ 0 := by
  decide

theorem DefaultEndpointReconcilerTTL_ne_zero : DefaultEndpointReconcilerTTL ≠ 0 := by
  decide

theorem repairLoopInterval_ne_zero : repairLoopInterval ≠ 0 := by
  decide

/-- A completed configuration is a fixed point of `Complete` when, on it, the
generic completion returns its argument, the peer interval is not zero, the
service IP range computation returns, and range and service IP are not nil. -/
theorem Complete_fixed_point {deps : Deps} {c c' : Config} (h : Complete deps c = .ok c')
    (hgen : deps.controlPlaneComplete c'.ControlPlane = .ok c'.ControlPlane)
    (hpeer : c'.ControlPlane.PeerEndpointReconcileInterval ≠ 0)
    (hsir : ∃ p, deps.ServiceIPRange c'.ExtraConfig.ServiceIPRange = .ok p)
    (hrange : c'.ExtraConfig.ServiceIPRange.IP ≠ none)
    (hip : c'.ExtraConfig.APIServerServiceIP ≠ none) :
    Complete deps c' = .ok c' := by
  obtain ⟨cp, r, ip, rec, _, _, _, hcp', hx⟩ := Complete_ok_fields h
  obtain ⟨⟨r2, ip2⟩, hsir⟩ := hsir
  have hset : c'.ExtraConfig.EndpointReconcilerConfig.Reconciler = some rec := by rw [hx]
  have hgen' : deps.controlPlaneComplete (defaultPeerInterval c').ControlPlane
      = .ok c'.ControlPlane := by rw [defaultPeerInterval_of_ne hpeer]; exact hgen
  rw [Complete_preset_of_steps hset hgen' hsir]
  have hext : defaultRepairInterval (beforeReconciler deps c' c'.ControlPlane r2 ip2).ExtraConfig
      = c'.ExtraConfig := by
    simp only [beforeReconciler, defaultServiceIP_of_ne hrange hip]
    apply defaults_fixed
    · rw [hx]
      simp only
      split
      · exact DefaultEndpointReconcilerInterval_ne_zero
      · assumption
    · rw [hx]
      simp only
      split
      · exact DefaultEndpointReconcilerTTL_ne_zero
      · assumption
    · rw [hx]
      simp only
      split
      · exact repairLoopInterval_ne_zero
      · assumption
    · rw [hx]
      simp only
      split
      · intro _
        rfl
      · intro h0
        contradiction
  have hcpl : (beforeReconciler deps c' c'.ControlPlane r2 ip2).ControlPlane = c'.ControlPlane := by
    simp only [beforeReconciler, defaultServiceIP_of_ne hrange hip]
    have e1 : c'.ExtraConfig.ServiceIPRange = (defaultServiceIP r ip c.ExtraConfig).ServiceIPRange := by
      rw [hx, defaultServiceIP_range]
    have e2 : c'.ExtraConfig.APIServerServiceIP
        = (defaultServiceIP r ip c.ExtraConfig).APIServerServiceIP := by
      rw [hx, defaultServiceIP_ip]
    have e3 : c'.ExtraConfig.APIServerServicePort
        = (defaultServiceIP r ip c.ExtraConfig).APIServerServicePort := by
      rw [hx, defaultServiceIP_port]
    rw [hcp']
    simp only [overrideDiscoveryAddresses, setDiscoveryAddresses, discoveryAddresses, e1, e2, e3]
  rw [hext, hcpl]

theorem Second_ten_ne_zero : (10 * Second : Duration) ≠ 0 := by decide

/-- Applying `Complete` a second time gives the first result again, for all
collaborators of which the following holds: the generic completion leaves no
zero peer interval and returns a configuration it has completed unchanged,
whatever discovery addresses have been put into it, and the service IP range
computation returns a range and a service IP that are not nil and accepts the
range it returned. -/
theorem Complete_twice_of_collaborators (deps : Deps) (c c' : Config)
    (hpeer : ∀ x y, deps.controlPlaneComplete x = .ok y → y.PeerEndpointReconcileInterval ≠ 0)
    (hgen : ∀ x y d, deps.controlPlaneComplete x = .ok y →
      deps.controlPlaneComplete (setDiscoveryAddresses y d) = .ok (setDiscoveryAddresses y d))
    (hsir : ∀ x r ip, deps.ServiceIPRange x = .ok (r, ip) →
      r.IP ≠ none ∧ ip ≠ none ∧ ∃ p, deps.ServiceIPRange r = .ok p)
    (h : Complete deps c = .ok c') :
    Complete deps c' = .ok c' := by
  obtain ⟨cp, r, ip, rec, hcp, hsr, _, hcp', hx⟩ := Complete_ok_fields h
  obtain ⟨hr, hi, hagain⟩ := hsir _ _ _ hsr
  apply Complete_fixed_point h
  · rw [hcp']
    exact hgen _ _ _ hcp
  · rw [hcp']
    exact hpeer _ cp hcp
  · rw [hx]
    simp only
    split
    · exact hagain
    · exact ⟨_, hsr⟩
  · rw [hx]
    simp only
    split
    · exact hr
    · assumption
  · rw [hx]
    simp only
    split
    · exact hi
    · assumption

/-- The generic completion of the spec leaves no zero peer interval. -/
theorem specControlPlaneComplete_peer (cp : ControlPlaneConfig) :
    (specControlPlaneComplete cp).PeerEndpointReconcileInterval ≠ 0 := by
  unfold specControlPlaneComplete
  split
  · exact Second_ten_ne_zero
  · assumption

/-- The generic completion of the spec keeps a peer interval that is set. -/
theorem specControlPlaneComplete_of_ne {cp : ControlPlaneConfig}
    (h : cp.PeerEndpointReconcileInterval ≠ 0) : specControlPlaneComplete cp = cp := by
  simp [specControlPlaneComplete, h]

/-- The service IP range computation of the spec returns a range and a service
IP that are not nil, and keeps a range that is set. -/
theorem specServiceIPRange_some (x : IPNet) :
    (specServiceIPRange x).1.IP ≠ none ∧ (specServiceIPRange x).2 ≠ none ∧
      (x.IP ≠ none → (specServiceIPRange x).1 = x) := by
  obtain ⟨xip, xm⟩ := x
  cases xip with
  | none => simp [specServiceIPRange, DefaultServiceIPCIDR]
  | some bs => simp [specServiceIPRange]

/-- C6: applying `Complete` to the configuration a first application returned
gives that configuration again, in every field: the control-plane part with the
peer interval and the discovery addresses, the service IP range and the service
IP, the node-port range, the intervals, the TTL and the reconciler.  The generic
completion and the service IP range computation are the ones modelled from the
spec; every other collaborator is arbitrary. -/
theorem Complete_idempotent (deps : Deps) (c c' : Config)
    (h : Complete (specDeps deps) c = .ok c') :
    Complete (specDeps deps) c' = .ok c' := by
  refine Complete_twice_of_collaborators (specDeps deps) c c' ?_ ?_ ?_ h
  · intro x y hxy
    simp only [specDeps, Except.ok.injEq] at hxy
    rw [← hxy]
    exact specControlPlaneComplete_peer x
  · intro x y d hxy
    simp only [specDeps, Except.ok.injEq] at hxy
    have hy : (setDiscoveryAddresses y d).PeerEndpointReconcileInterval ≠ 0 := by
      rw [← hxy]
      exact specControlPlaneComplete_peer x
    simp only [specDeps, specControlPlaneComplete_of_ne hy]
  · intro x r ip hx
    simp only [specDeps, Except.ok.injEq] at hx
    obtain ⟨h1, h2, _⟩ := specServiceIPRange_some x
    rw [hx] at h1 h2
    exact ⟨h1, h2, _, rfl⟩

/-- C6, at the sample configuration: the first application defaults every unset
field, the second returns the same configuration. -/
theorem Complete_idempotent_witness :
    ∃ c', Complete (specDeps sampleDeps) sampleConfig = .ok c' ∧
      c'.ControlPlane.PeerEndpointReconcileInterval = 10 * Second ∧
      c'.ExtraConfig.APIServerServiceIP = some [10, 0, 0, 1] ∧
      Complete (specDeps sampleDeps) c' = .ok c' :=
  ⟨_, rfl, rfl, rfl, Complete_idempotent sampleDeps sampleConfig _ rfl⟩

/-- It is the generic completion that keeps the peer interval stable: lines
250-253 leave a zero peer interval alone when the endpoint reconciler interval is
unset too, and were the generic completion to leave it at zero, a second
application would give it the endpoint reconciler interval the first one has
defaulted. -/
theorem Complete_twice_idle_generic_completion :
    ∃ c', Complete idleCompletionDeps sampleConfig = .ok c' ∧
      c'.ControlPlane.PeerEndpointReconcileInterval = 0 ∧
      ∃ c'', Complete idleCompletionDeps c' = .ok c'' ∧
        c''.ControlPlane.PeerEndpointReconcileInterval = 10 * Second :=
  ⟨_, rfl, rfl, _, rfl, rfl⟩

/-! ## Completion: what the caller has set -/

/-- C7, as stated, fails: discovery addresses the caller has set are replaced;
so are a node-port range with a base and no size, and a service IP range with a
mask and no address. -/
theorem Complete_overwrites_caller_fields :
    callerSetConfig.ControlPlane.Generic.DiscoveryAddresses = some (.other 5) ∧
    callerSetConfig.ExtraConfig.ServiceNodePortRange ≠ ⟨0, 0⟩ ∧
    callerSetConfig.ExtraConfig.ServiceIPRange ≠ ⟨none, none⟩ ∧
    ∃ c', Complete sampleDeps callerSetConfig = .ok c' ∧
      (∃ d, c'.ControlPlane.Generic.DiscoveryAddresses = some (.defaultAddresses d)) ∧
      c'.ControlPlane.Generic.DiscoveryAddresses
        ≠ callerSetConfig.ControlPlane.Generic.DiscoveryAddresses ∧
      c'.ExtraConfig.ServiceNodePortRange ≠ callerSetConfig.ExtraConfig.ServiceNodePortRange ∧
      c'.ExtraConfig.ServiceIPRange ≠ callerSetConfig.ExtraConfig.ServiceIPRange :=
  ⟨rfl, by decide, by decide, _, rfl, ⟨_, rfl⟩, by decide, by decide, by decide⟩

/-- What `Complete` itself keeps, whatever the collaborators: a service IP range
with a non-nil address, a non-nil service IP, a node-port range of non-zero
size, a non-zero endpoint reconciler interval, a reconciler, a non-zero master
endpoint reconcile TTL and a non-zero repair interval are the caller's; a
non-zero peer interval is handed to the generic completion as the caller set it
and `Complete` does not write what the generic completion returns for it; the
generic discovery addresses are, whatever the caller had set, the ones built
from the external address, the service IP range, the service IP and the service
port. -/
theorem Complete_keeps_of_collaborators (deps : Deps) (c c' : Config)
    (h : Complete deps c = .ok c') :
    (c.ExtraConfig.ServiceIPRange.IP ≠ none →
      c'.ExtraConfig.ServiceIPRange = c.ExtraConfig.ServiceIPRange) ∧
    (c.ExtraConfig.APIServerServiceIP ≠ none →
      c'.ExtraConfig.APIServerServiceIP = c.ExtraConfig.APIServerServiceIP) ∧
    (c.ExtraConfig.ServiceNodePortRange.Size ≠ 0 →
      c'.ExtraConfig.ServiceNodePortRange = c.ExtraConfig.ServiceNodePortRange) ∧
    (c.ExtraConfig.EndpointReconcilerConfig.Interval ≠ 0 →
      c'.ExtraConfig.EndpointReconcilerConfig.Interval
        = c.ExtraConfig.EndpointReconcilerConfig.Interval) ∧
    (c.ExtraConfig.EndpointReconcilerConfig.Reconciler ≠ none →
      c'.ExtraConfig.EndpointReconcilerConfig.Reconciler
        = c.ExtraConfig.EndpointReconcilerConfig.Reconciler) ∧
    (c.ExtraConfig.MasterEndpointReconcileTTL ≠ 0 →
      c'.ExtraConfig.MasterEndpointReconcileTTL = c.ExtraConfig.MasterEndpointReconcileTTL) ∧
    (c.ExtraConfig.RepairServicesInterval ≠ 0 →
      c'.ExtraConfig.RepairServicesInterval = c.ExtraConfig.RepairServicesInterval) ∧
    (c.ControlPlane.PeerEndpointReconcileInterval ≠ 0 →
      ∃ cp, deps.controlPlaneComplete c.ControlPlane = .ok cp ∧
        c'.ControlPlane.PeerEndpointReconcileInterval = cp.PeerEndpointReconcileInterval) ∧
    c'.ControlPlane.Generic.DiscoveryAddresses
      = some (.defaultAddresses
          { DefaultAddress := c'.ControlPlane.Generic.ExternalAddress
            CIDRRules :=
              [{ IPRange := c'.ExtraConfig.ServiceIPRange
                 Address := JoinHostPort (deps.ipString c'.ExtraConfig.APIServerServiceIP)
                   (Itoa c'.ExtraConfig.APIServerServicePort) }] }) := by
  obtain ⟨cp, r, ip, rec, hcp, hsr, hrec, hcp', hx⟩ := Complete_ok_fields h
  refine ⟨?_, ?_, ?_, ?_, ?_, ?_, ?_, ?_, ?_⟩
  · intro hne
    rw [hx]
    simp [hne]
  · intro hne
    rw [hx]
    simp [hne]
  · intro hne
    rw [hx]
    simp [hne]
  · intro hne
    rw [hx]
    simp [hne]
  · intro hne
    rcases hrec with hrec | ⟨hrec, _⟩
    · rw [hx, hrec]
    · exact absurd hrec hne
  · intro hne
    rw [hx]
    simp [hne]
  · intro hne
    rw [hx]
    simp [hne]
  · intro hne
    rw [defaultPeerInterval_of_ne hne] at hcp
    refine ⟨cp, hcp, ?_⟩
    rw [hcp']
    rfl
  · rw [hcp', hx]
    simp only [overrideDiscoveryAddresses, setDiscoveryAddresses, discoveryAddresses,
      defaultServiceIP_range, defaultServiceIP_ip, defaultServiceIP_port, List.nil_append]

/-- C7, amended: in the configuration `Complete` returns, a service IP range with
a non-nil address, a non-nil service IP, a node-port range of non-zero size, a
non-zero endpoint reconciler interval, a reconciler, a non-zero master endpoint
reconcile TTL, a non-zero repair interval and a non-zero peer endpoint reconcile
interval are the caller's; the generic discovery addresses are, whatever the
caller had set, the ones built from the external address, the service IP range,
the service IP and the service port.  The generic completion and the service IP
range computation are the ones modelled from the spec; every other collaborator
is arbitrary. -/
theorem Complete_keeps_caller_fields (deps : Deps) (c c' : Config)
    (h : Complete (specDeps deps) c = .ok c') :
    (c.ExtraConfig.ServiceIPRange.IP ≠ none →
      c'.ExtraConfig.ServiceIPRange = c.ExtraConfig.ServiceIPRange) ∧
    (c.ExtraConfig.APIServerServiceIP ≠ none →
      c'.ExtraConfig.APIServerServiceIP = c.ExtraConfig.APIServerServiceIP) ∧
    (c.ExtraConfig.ServiceNodePortRange.Size ≠ 0 →
      c'.ExtraConfig.ServiceNodePortRange = c.ExtraConfig.ServiceNodePortRange) ∧
    (c.ExtraConfig.EndpointReconcilerConfig.Interval ≠ 0 →
      c'.ExtraConfig.EndpointReconcilerConfig.Interval
        = c.ExtraConfig.EndpointReconcilerConfig.Interval) ∧
    (c.ExtraConfig.EndpointReconcilerConfig.Reconciler ≠ none →
      c'.ExtraConfig.EndpointReconcilerConfig.Reconciler
        = c.ExtraConfig.EndpointReconcilerConfig.Reconciler) ∧
    (c.ExtraConfig.MasterEndpointReconcileTTL ≠ 0 →
      c'.ExtraConfig.MasterEndpointReconcileTTL = c.ExtraConfig.MasterEndpointReconcileTTL) ∧
    (c.ExtraConfig.RepairServicesInterval ≠ 0 →
      c'.ExtraConfig.RepairServicesInterval = c.ExtraConfig.RepairServicesInterval) ∧
    (c.ControlPlane.PeerEndpointReconcileInterval ≠ 0 →
      c'.ControlPlane.PeerEndpointReconcileInterval
        = c.ControlPlane.PeerEndpointReconcileInterval) ∧
    c'.ControlPlane.Generic.DiscoveryAddresses
      = some (.defaultAddresses
          { DefaultAddress := c'.ControlPlane.Generic.ExternalAddress
            CIDRRules :=
              [{ IPRange := c'.ExtraConfig.ServiceIPRange
                 Address := JoinHostPort (deps.ipString c'.ExtraConfig.APIServerServiceIP)
                   (Itoa c'.ExtraConfig.APIServerServicePort) }] }) := by
  obtain ⟨h1, h2, h3, h4, h5, h6, h7, h8, h9⟩ :=
    Complete_keeps_of_collaborators (specDeps deps) c c' h
  refine ⟨h1, h2, h3, h4, h5, h6, h7, ?_, h9⟩
  intro hne
  obtain ⟨cp, hcp, hpeer⟩ := h8 hne
  simp only [specDeps, Except.ok.injEq] at hcp
  rw [hpeer, ← hcp, specControlPlaneComplete_of_ne hne]

/-- C7 amended, at the sample configuration with a peer interval of 7 seconds, a
reconciler of the caller's own and a service IP range of the caller's own: all
three are kept. -/
theorem Complete_keeps_caller_fields_witness :
    ∃ c', Complete (specDeps sampleDeps) callerKeptConfig = .ok c' ∧
      c'.ControlPlane.PeerEndpointReconcileInterval = 7 * Second ∧
      c'.ExtraConfig.EndpointReconcilerConfig.Reconciler = some (.other 0) ∧
      c'.ExtraConfig.ServiceIPRange = ⟨some [172, 16, 0, 0], some [255, 255, 0, 0]⟩ := by
  obtain ⟨h1, _, _, _, h5, _, _, h8, _⟩ :=
    Complete_keeps_caller_fields sampleDeps callerKeptConfig _ rfl
  exact ⟨_, rfl, h8 (by decide), h5 (by decide), h1 (by decide)⟩

/-! ## Completion: interval and TTL -/

/-- C8 fails on the code: with a master endpoint reconcile TTL of 30 seconds and
no interval, the completed interval is 10 seconds, which is not 2/3 of 30
seconds; with an interval of 20 seconds and no TTL, the completed TTL is 15
seconds, of which 20 seconds is not 2/3.  With neither set, 10 seconds is 2/3 of
15 seconds. -/
theorem Complete_interval_not_two_thirds :
    (∃ c', Complete sampleDeps ttlOnlyConfig = .ok c' ∧
      c'.ExtraConfig.EndpointReconcilerConfig.Interval = 10 * Second ∧
      c'.ExtraConfig.MasterEndpointReconcileTTL = 30 * Second ∧
      3 * c'.ExtraConfig.EndpointReconcilerConfig.Interval
        ≠ 2 * c'.ExtraConfig.MasterEndpointReconcileTTL) ∧
    (∃ c', Complete sampleDeps intervalOnlyConfig = .ok c' ∧
      c'.ExtraConfig.EndpointReconcilerConfig.Interval = 20 * Second ∧
      c'.ExtraConfig.MasterEndpointReconcileTTL = 15 * Second ∧
      3 * c'.ExtraConfig.EndpointReconcilerConfig.Interval
        ≠ 2 * c'.ExtraConfig.MasterEndpointReconcileTTL) ∧
    (∃ c', Complete sampleDeps sampleConfig = .ok c' ∧
      3 * c'.ExtraConfig.EndpointReconcilerConfig.Interval
        = 2 * c'.ExtraConfig.MasterEndpointReconcileTTL) :=
  ⟨⟨_, rfl, rfl, rfl, by decide⟩, ⟨_, rfl, rfl, rfl, by decide⟩, ⟨_, rfl, by decide⟩⟩

/-! ## Instance construction: the hooks -/

/-- A registration of a post-start hook that does not end the process: the
name is not empty, and either the name is disabled and the server is as before,
or the hook is added under a name that was free. -/
theorem AddPostStartHookOrDie_ok_inv {deps : NewDeps} {s s' : Server} {name : String}
    {hook : PostStartHookFunc} (h : AddPostStartHookOrDie deps s name hook = .ok s') :
    (name ∈ s.disabledPostStartHooks ∧ s' = s) ∨
    (name ∉ s.disabledPostStartHooks ∧ name ∉ s.postStartHooks.map Prod.fst ∧
      s' = { s with postStartHooks := s.postStartHooks ++ [(name, hook)] }) := by
  obtain ⟨sid, dis, ps, psc, pre, prec⟩ := s
  unfold AddPostStartHookOrDie AddPostStartHook at h
  simp only at h ⊢
  by_cases h0 : name.length = 0
  · simp [h0] at h
  · by_cases hd : name ∈ dis
    · simp only [h0, hd, ↓reduceIte, Except.ok.injEq] at h
      exact Or.inl ⟨hd, h.symm⟩
    · cases psc with
      | true => simp [h0, hd] at h
      | false =>
        by_cases he : name ∈ ps.map Prod.fst
        · simp only [h0, hd, he, ↓reduceIte] at h
          simp at h
        · cases hh : deps.addBootSequenceHealthChecks ⟨sid, dis, ps, false, pre, prec⟩
              ("poststarthook/" ++ name) with
          | some err =>
            simp only [h0, hd, he, hh, ↓reduceIte] at h
            simp at h
          | none =>
            simp only [h0, hd, he, hh, ↓reduceIte, Bool.false_eq_true,
              Except.ok.injEq] at h
            exact Or.inr ⟨hd, he, h.symm⟩

/-- A registration of a pre-shutdown hook that does not end the process adds the
hook under a name that was free. -/
theorem AddPreShutdownHookOrDie_ok_inv {s s' : Server} {name : String}
    {hook : PreShutdownHookFunc} (h : AddPreShutdownHookOrDie s name hook = .ok s') :
    name ∉ s.preShutdownHooks.map Prod.fst ∧
      s' = { s with preShutdownHooks := s.preShutdownHooks ++ [(name, hook)] } := by
  obtain ⟨sid, dis, ps, psc, pre, prec⟩ := s
  unfold AddPreShutdownHookOrDie AddPreShutdownHook at h
  simp only at h ⊢
  by_cases h0 : name.length = 0
  · simp [h0] at h
  · cases prec with
    | true => simp [h0] at h
    | false =>
      by_cases he : name ∈ pre.map Prod.fst
      · simp only [h0, he, ↓reduceIte] at h
        simp at h
      · simp only [h0, he, ↓reduceIte, Bool.false_eq_true, Except.ok.injEq] at h
        exact ⟨he, h.symm⟩

/-- When every collaborator returns and both registrations go through, `New`
returns the instance, having made the calls of `successfulActions`. -/
theorem New_of_steps {deps : NewDeps} {c : Config} {delegationTarget : DelegationTarget}
    {cp s1 s2 s3 : Server} {client : Clientset} {legacy : Nat} {host : String} {port : Int}
    (hk : c.ExtraConfig.KubeletClientConfig ≠ KubeletClientConfig.zero)
    (h1 : deps.controlPlaneNew c.ControlPlane "kube-apiserver" delegationTarget = .ok cp)
    (h2 : deps.kubernetesNewForConfig c.ControlPlane.Generic.LoopbackClientConfig = .ok client)
    (h3 : deps.corerestNew (corerestConfig c) = .ok legacy)
    (h4 : deps.installAPIs cp (restStorageProviders c legacy client) = .ok s1)
    (h5 : deps.hostPort c.ControlPlane.Generic.SecureServing = .ok (host, port))
    (h6 : AddPostStartHookOrDie deps s1 "bootstrap-controller"
      (.bootstrapController ⟨kubernetesServiceCtrl deps c client port⟩) = .ok s2)
    (h7 : AddPreShutdownHookOrDie s2 "stop-kubernetes-service-controller"
      (.stopController ⟨kubernetesServiceCtrl deps c client port⟩) = .ok s3) :
    New deps c delegationTarget
      = ⟨successfulActions deps c delegationTarget client legacy port,
          .returned (some ⟨s3⟩) none⟩ := by
  simp [New, hk, h1, h2, h3, h4, h5, h6, h7, successfulActions]

/-- A `New` that returns no error has gone through every step. -/
theorem New_succeeds_inv {deps : NewDeps} {c : Config} {delegationTarget : DelegationTarget}
    {inst : Option Instance}
    (h : (New deps c delegationTarget).result = .returned inst none) :
    ∃ cp s1 s2 s3 client legacy host port,
      c.ExtraConfig.KubeletClientConfig ≠ KubeletClientConfig.zero ∧
      deps.controlPlaneNew c.ControlPlane "kube-apiserver" delegationTarget = .ok cp ∧
      deps.kubernetesNewForConfig c.ControlPlane.Generic.LoopbackClientConfig = .ok client ∧
      deps.corerestNew (corerestConfig c) = .ok legacy ∧
      deps.installAPIs cp (restStorageProviders c legacy client) = .ok s1 ∧
      deps.hostPort c.ControlPlane.Generic.SecureServing = .ok (host, port) ∧
      AddPostStartHookOrDie deps s1 "bootstrap-controller"
        (.bootstrapController ⟨kubernetesServiceCtrl deps c client port⟩) = .ok s2 ∧
      AddPreShutdownHookOrDie s2 "stop-kubernetes-service-controller"
        (.stopController ⟨kubernetesServiceCtrl deps c client port⟩) = .ok s3 ∧
      inst = some ⟨s3⟩ := by
  unfold New at h
  by_cases hk : c.ExtraConfig.KubeletClientConfig = KubeletClientConfig.zero
  · simp [hk] at h
  · cases h1 : deps.controlPlaneNew c.ControlPlane "kube-apiserver" delegationTarget with
    | error e => simp [hk, h1] at h
    | ok cp =>
    cases h2 : deps.kubernetesNewForConfig c.ControlPlane.Generic.LoopbackClientConfig with
    | error e => simp [hk, h1, h2] at h
    | ok client =>
    cases h3 : deps.corerestNew (corerestConfig c) with
    | error e => simp [hk, h1, h2, h3] at h
    | ok legacy =>
    cases h4 : deps.installAPIs cp (restStorageProviders c legacy client) with
    | error e => simp [hk, h1, h2, h3, h4] at h
    | ok s1 =>
    cases h5 : deps.hostPort c.ControlPlane.Generic.SecureServing with
    | error e => simp [hk, h1, h2, h3, h4, h5] at h
    | ok hp =>
    obtain ⟨host, port⟩ := hp
    cases h6 : AddPostStartHookOrDie deps s1 "bootstrap-controller"
        (.bootstrapController ⟨kubernetesServiceCtrl deps c client port⟩) with
    | error e => simp [hk, h1, h2, h3, h4, h5, h6] at h
    | ok s2 =>
    cases h7 : AddPreShutdownHookOrDie s2 "stop-kubernetes-service-controller"
        (.stopController ⟨kubernetesServiceCtrl deps c client port⟩) with
    | error e => simp [hk, h1, h2, h3, h4, h5, h6, h7] at h
    | ok s3 =>
      simp only [hk, h1, h2, h3, h4, h5, h6, h7, ↓reduceIte, NewResult.returned.injEq,
        and_true] at h
      refine ⟨cp, s1, s2, s3, client, legacy, host, port, hk, ?_, ?_, ?_, ?_, ?_, ?_, ?_,
        h.symm⟩ <;> first | rfl | assumption

/-- C12, as stated, fails: on a generic server built with the post-start hook
`bootstrap-controller` disabled, `New` succeeds, has handed that hook to
`AddPostStartHookOrDie`, and the server holds no post-start hook of that name;
the pre-shutdown hook is registered. -/
theorem New_disabled_hook_not_registered :
    ∃ inst, (New disabledHookNewDeps sampleCompleted ⟨3⟩).result = .returned (some inst) none ∧
      (addPostStartHookCalls (New disabledHookNewDeps sampleCompleted ⟨3⟩).actions).map Prod.fst
        = ["bootstrap-controller"] ∧
      inst.ControlPlane.postStartHooks = [("generic-apiserver-start-informers", .other 0)] ∧
      "bootstrap-controller" ∉ inst.ControlPlane.postStartHooks.map Prod.fst ∧
      inst.ControlPlane.preShutdownHooks.map Prod.fst = ["stop-kubernetes-service-controller"] :=
  ⟨_, rfl, by decide, rfl, by decide, by decide⟩

/-- C12, amended: when `New` returns an instance and no error, it has handed the
generic server exactly one post-start hook, under the name
`bootstrap-controller`, and exactly one pre-shutdown hook, under the name
`stop-kubernetes-service-controller`.  The server then holds the pre-shutdown
hook under its name, which was free, next to the hooks it held after
`InstallAPIs`; it holds the post-start hook likewise unless the name is among
its disabled post-start hooks, in which case its post-start hooks are those it
held after `InstallAPIs`.  Both hooks close over the controller
`kubernetesservice.New` has just built, whose reconciler and interval are those
of the completed `EndpointReconcilerConfig`; running the post-start hook calls
`Start` on that controller with the stop channel of the hook context and returns
no error, running the pre-shutdown hook calls `Stop` on it and returns no
error. -/
theorem New_registers_hooks (deps : NewDeps) (c : Config) (delegationTarget : DelegationTarget)
    (inst : Option Instance)
    (h : (New deps c delegationTarget).result = .returned inst none) :
    ∃ (ctrl : Controller) (cp s1 s3 : Server) (client : Clientset) (legacy : Nat),
      deps.installAPIs cp (restStorageProviders c legacy client) = .ok s1 ∧
      inst = some ⟨s3⟩ ∧
      addPostStartHookCalls (New deps c delegationTarget).actions
        = [("bootstrap-controller", ⟨ctrl⟩)] ∧
      addPreShutdownHookCalls (New deps c delegationTarget).actions
        = [("stop-kubernetes-service-controller", ⟨ctrl⟩)] ∧
      ("bootstrap-controller" ∉ s1.disabledPostStartHooks →
        "bootstrap-controller" ∉ s1.postStartHooks.map Prod.fst ∧
        s3.postStartHooks
          = s1.postStartHooks ++ [("bootstrap-controller", .bootstrapController ⟨ctrl⟩)]) ∧
      ("bootstrap-controller" ∈ s1.disabledPostStartHooks →
        s3.postStartHooks = s1.postStartHooks) ∧
      "stop-kubernetes-service-controller" ∉ s1.preShutdownHooks.map Prod.fst ∧
      s3.preShutdownHooks
        = s1.preShutdownHooks
          ++ [("stop-kubernetes-service-controller", .stopController ⟨ctrl⟩)] ∧
      Action.kubernetesserviceNew ctrl ∈ (New deps c delegationTarget).actions ∧
      ctrl.Config.EndpointReconciler = c.ExtraConfig.EndpointReconcilerConfig.Reconciler ∧
      ctrl.Config.EndpointInterval = c.ExtraConfig.EndpointReconcilerConfig.Interval ∧
      (∀ stopCh, PostStartHook.run ⟨ctrl⟩ stopCh = ([.Start ctrl stopCh], none)) ∧
      PreShutdownHook.run ⟨ctrl⟩ = ([.Stop ctrl], none) := by
  obtain ⟨cp, s1, s2, s3, client, legacy, host, port, hk, h1, h2, h3, h4, h5, h6, h7, hinst⟩ :=
    New_succeeds_inv h
  have hnew := New_of_steps hk h1 h2 h3 h4 h5 h6 h7
  obtain ⟨hfree, hs3⟩ := AddPreShutdownHookOrDie_ok_inv h7
  refine ⟨kubernetesServiceCtrl deps c client port, cp, s1, s3, client, legacy, h4, hinst,
    ?_, ?_, ?_, ?_, ?_, ?_, ?_, rfl, rfl, fun _ => rfl, rfl⟩
  · rw [hnew]
    simp [successfulActions, addPostStartHookCalls]
  · rw [hnew]
    simp [successfulActions, addPreShutdownHookCalls]
  · intro hd
    rcases AddPostStartHookOrDie_ok_inv h6 with ⟨hd', _⟩ | ⟨_, hfree', hs2⟩
    · exact absurd hd' hd
    · refine ⟨hfree', ?_⟩
      rw [hs3, hs2]
  · intro hd
    rcases AddPostStartHookOrDie_ok_inv h6 with ⟨_, hs2⟩ | ⟨hd', _, _⟩
    · rw [hs3, hs2]
    · exact absurd hd hd'
  · rcases AddPostStartHookOrDie_ok_inv h6 with ⟨_, hs2⟩ | ⟨_, _, hs2⟩
    · rw [hs2] at hfree
      exact hfree
    · rw [hs2] at hfree
      exact hfree
  · rcases AddPostStartHookOrDie_ok_inv h6 with ⟨_, hs2⟩ | ⟨_, _, hs2⟩
    · rw [hs3, hs2]
    · rw [hs3, hs2]
  · rw [hnew]
    simp [successfulActions]

/-- C12 amended, at the completed sample configuration: `New` returns an
instance whose server holds the hook `bootstrap-controller` next to the hook of
the generic server, and the hook `stop-kubernetes-service-controller`. -/
theorem New_registers_hooks_witness :
    ∃ inst, (New sampleNewDeps sampleCompleted ⟨3⟩).result = .returned (some inst) none ∧
      inst.ControlPlane.postStartHooks.map Prod.fst
        = ["generic-apiserver-start-informers", "bootstrap-controller"] ∧
      inst.ControlPlane.preShutdownHooks.map Prod.fst
        = ["stop-kubernetes-service-controller"] ∧
      ∃ ctrl : Controller,
        addPostStartHookCalls (New sampleNewDeps sampleCompleted ⟨3⟩).actions
          = [("bootstrap-controller", ⟨ctrl⟩)] ∧
        ctrl.Config.EndpointInterval = 10 * Second := by
  obtain ⟨ctrl, _, _, _, _, _, _, _, h1, _, _, _, _, _, _, _, h5, _⟩ :=
    New_registers_hooks sampleNewDeps sampleCompleted ⟨3⟩ _ rfl
  exact ⟨_, rfl, by decide, by decide, ctrl, h1, h5.trans rfl⟩

end Controlplane

namespace Conversion

/-! ## The no-op converter: auxiliary facts -/

theorem getField_setField_same (m : Fields) (k : String) (v : Value) :
    getField (setField m k v) k = some v := by
  induction m with
  | nil => simp [setField, getField]
  | cons e rest ih =>
    obtain ⟨k', v'⟩ := e
    by_cases h : k' = k
    · simp [setField, getField, h]
    · simp [setField, getField, h, ih]

theorem getField_setField_ne (m : Fields) {k k' : String} (v : Value) (hne : k' ≠ k) :
    getField (setField m k v) k' = getField m k' := by
  induction m with
  | nil => simp [setField, getField, hne.symm]
  | cons e rest ih =>
    obtain ⟨k₀, v₀⟩ := e
    by_cases h : k₀ = k
    · subst h
      simp [setField, getField, hne.symm]
    · by_cases h' : k₀ = k'
      · subst h'
        simp [setField, getField, h]
      · simp [setField, getField, h, h', ih]

/-- What `setNestedField` does to the heap and the item: the item holds a map
afterwards, at an address `a`; the map at `a` is the former map of the item
(the empty map if the item held none) with the field written; every other
map is as before. -/
theorem setNestedField_spec (h : Heap) (u : Unstructured) (v : Value) (k : String) :
    ∃ a m, (u.setNestedField h v k).2 = ⟨some a⟩ ∧
      (∀ k', u.field h k' = getField m k') ∧
      (u.setNestedField h v k).1.maps a = setField m k v ∧
      (∀ b, b ≠ a → (u.setNestedField h v k).1.maps b = h.maps b) ∧
      (∀ b, u.Object = some b → b = a ∧ m = h.maps a) := by
  unfold Unstructured.setNestedField Unstructured.field
  cases hu : u.Object with
  | none =>
    refine ⟨h.next, [], rfl, fun k' => by simp [getField], ?_, ?_, ?_⟩
    · simp [Heap.write, Heap.make]
    · intro b hb
      simp [Heap.write, Heap.make, hb]
    · intro b hb
      cases hb
  | some a =>
    refine ⟨a, h.maps a, ?_, fun k' => rfl, ?_, ?_, ?_⟩
    · obtain ⟨o⟩ := u
      simp only at hu
      simp [hu]
    · simp [Heap.write]
    · intro b hb
      simp [Heap.write, hb]
    · intro b hb
      cases hb
      exact ⟨rfl, rfl⟩

theorem field_setNestedField_same (h : Heap) (u : Unstructured) (v : Value) (k : String) :
    (u.setNestedField h v k).2.field (u.setNestedField h v k).1 k = some v := by
  obtain ⟨a, m, hu, _, hm, _, _⟩ := setNestedField_spec h u v k
  rw [hu]
  simp only [Unstructured.field, hm, getField_setField_same]

theorem field_setNestedField_ne (h : Heap) (u : Unstructured) (v : Value) {k k' : String}
    (hne : k' ≠ k) :
    (u.setNestedField h v k).2.field (u.setNestedField h v k).1 k' = u.field h k' := by
  obtain ⟨a, m, hu, hf, hm, _, _⟩ := setNestedField_spec h u v k
  rw [hu, hf]
  simp only [Unstructured.field, hm, getField_setField_ne m v hne]

theorem getNestedString_eq_field (h : Heap) (u : Unstructured) (k : String) :
    getNestedString h u.Object k = match u.field h k with
      | some (.str s) => s
      | _ => "" := by
  unfold getNestedString Unstructured.field
  cases u.Object <;> rfl

theorem GetAPIVersion_SetGroupVersionKind (h : Heap) (u : Unstructured) (gvk : GroupVersionKind) :
    (u.SetGroupVersionKind h gvk).2.GetAPIVersion (u.SetGroupVersionKind h gvk).1
      = gvk.GroupVersion.String := by
  unfold Unstructured.GetAPIVersion
  rw [getNestedString_eq_field]
  unfold Unstructured.SetGroupVersionKind Unstructured.SetKind Unstructured.SetAPIVersion
  simp only
  rw [field_setNestedField_ne _ _ _ (by decide), field_setNestedField_same]

theorem GetKind_SetGroupVersionKind (h : Heap) (u : Unstructured) (gvk : GroupVersionKind) :
    (u.SetGroupVersionKind h gvk).2.GetKind (u.SetGroupVersionKind h gvk).1 = gvk.Kind := by
  unfold Unstructured.GetKind
  rw [getNestedString_eq_field]
  unfold Unstructured.SetGroupVersionKind Unstructured.SetKind
  simp only
  rw [field_setNestedField_same]

theorem field_SetGroupVersionKind (h : Heap) (u : Unstructured) (gvk : GroupVersionKind)
    {k : String} (h1 : k ≠ "apiVersion") (h2 : k ≠ "kind") :
    (u.SetGroupVersionKind h gvk).2.field (u.SetGroupVersionKind h gvk).1 k = u.field h k := by
  unfold Unstructured.SetGroupVersionKind Unstructured.SetKind Unstructured.SetAPIVersion
  simp only
  rw [field_setNestedField_ne _ _ _ h2, field_setNestedField_ne _ _ _ h1]

theorem countSlash_eq_zero {s : String} (h : '/' ∉ s.data) : countSlash s = 0 := by
  unfold countSlash
  exact List.count_eq_zero.mpr h

theorem takeWhile_ne_append (l r : List Char) (h : '/' ∉ l) :
    (l ++ '/' :: r).takeWhile (fun ch => ch != '/') = l := by
  induction l with
  | nil => simp
  | cons a l ih =>
    have ha : a ≠ '/' := fun e => h (by simp [e])
    have hl : '/' ∉ l := fun e => h (by simp [e])
    simp [List.takeWhile_cons, ha, ih hl]

theorem dropWhile_ne_append (l r : List Char) (h : '/' ∉ l) :
    (l ++ '/' :: r).dropWhile (fun ch => ch != '/') = '/' :: r := by
  induction l with
  | nil => simp
  | cons a l ih =>
    have ha : a ≠ '/' := fun e => h (by simp [e])
    have hl : '/' ∉ l := fun e => h (by simp [e])
    simp [List.dropWhile_cons, ha, ih hl]

/-- Reading back the string form of a group-version whose group and version hold
no slash gives the group-version. -/
theorem ParseGroupVersion_String (gv : GroupVersion) (hg : '/' ∉ gv.Group.data)
    (hv : '/' ∉ gv.Version.data) : ParseGroupVersion gv.String = .ok gv := by
  obtain ⟨⟨g⟩, ⟨v⟩⟩ := gv
  simp only at hg hv
  unfold GroupVersion.String
  cases g with
  | nil =>
    simp only [String.length, List.length_nil, gt_iff_lt, lt_self_iff_false, ↓reduceIte]
    unfold ParseGroupVersion
    cases v with
    | nil => simp [String.length]
    | cons a v =>
      have h1 : ¬ ((⟨a :: v⟩ : String).length = 0 ∨ (⟨a :: v⟩ : String) = "/") := by
        intro h
        rcases h with h | h
        · simp [String.length] at h
        · have := congrArg String.data h
          simp only at this
          rw [this] at hv
          exact hv (by decide)
      rw [if_neg h1, countSlash_eq_zero hv]
  | cons a g =>
    have hs : (⟨a :: g⟩ : String) ++ "/" ++ (⟨v⟩ : String) = ⟨(a :: g) ++ '/' :: v⟩ := by
      apply String.ext
      simp [String.data_append]
    simp only [String.length, List.length_cons, gt_iff_lt, Nat.zero_lt_succ, ↓reduceIte, hs]
    unfold ParseGroupVersion
    have h1 : ¬ ((⟨(a :: g) ++ '/' :: v⟩ : String).length = 0
        ∨ (⟨(a :: g) ++ '/' :: v⟩ : String) = "/") := by
      intro h
      rcases h with h | h
      · simp [String.length] at h
      · have := congrArg (fun s => s.data.length) h
        simp at this
    have hc : countSlash ⟨(a :: g) ++ '/' :: v⟩ = 1 := by
      unfold countSlash
      simp only [List.count_append, List.count_cons_self]
      rw [List.count_eq_zero.mpr hg, List.count_eq_zero.mpr hv]
    rw [if_neg h1, hc]
    simp only [beforeSlash, afterSlash]
    rw [takeWhile_ne_append _ _ hg, dropWhile_ne_append _ _ hg]
    rfl

theorem convertItem_GetAPIVersion (h : Heap) (targetGV : GroupVersion) (u : Unstructured) :
    (convertItem h targetGV u).2.GetAPIVersion (convertItem h targetGV u).1
      = targetGV.String := by
  unfold convertItem
  rw [GetAPIVersion_SetGroupVersionKind]
  rfl

theorem convertItem_GetKind (h : Heap) (targetGV : GroupVersion) (u : Unstructured) :
    (convertItem h targetGV u).2.GetKind (convertItem h targetGV u).1
      = (u.GroupVersionKind h).Kind := by
  unfold convertItem
  rw [GetKind_SetGroupVersionKind]
  rfl

theorem convertItem_field (h : Heap) (targetGV : GroupVersion) (u : Unstructured) (k : String)
    (h1 : k ≠ "apiVersion") (h2 : k ≠ "kind") :
    (convertItem h targetGV u).2.field (convertItem h targetGV u).1 k = u.field h k :=
  field_SetGroupVersionKind h u _ h1 h2

/-- What `SetGroupVersionKind` does to the heap: the item holds a map afterwards,
whose apiVersion is the string form of the group-version; every other map is
as before. -/
theorem SetGroupVersionKind_frame (h : Heap) (u : Unstructured) (gvk : GroupVersionKind) :
    ∃ a, (u.SetGroupVersionKind h gvk).2 = ⟨some a⟩ ∧
      getField ((u.SetGroupVersionKind h gvk).1.maps a) "apiVersion"
        = some (.str gvk.GroupVersion.String) ∧
      ∀ b, b ≠ a → (u.SetGroupVersionKind h gvk).1.maps b = h.maps b := by
  unfold Unstructured.SetGroupVersionKind Unstructured.SetKind Unstructured.SetAPIVersion
  simp only
  obtain ⟨a, m, hu, _, hm, hothers, _⟩ :=
    setNestedField_spec h u (.str gvk.GroupVersion.String) "apiVersion"
  obtain ⟨a', m', hu', _, hm', hothers', hsame⟩ :=
    setNestedField_spec (u.setNestedField h (.str gvk.GroupVersion.String) "apiVersion").1
      (u.setNestedField h (.str gvk.GroupVersion.String) "apiVersion").2 (.str gvk.Kind) "kind"
  obtain ⟨haa, hm'eq⟩ := hsame a (by rw [hu])
  subst haa
  refine ⟨a, hu', ?_, ?_⟩
  · rw [hm', getField_setField_ne _ _ (by decide), hm'eq, hm, getField_setField_same]
  · intro b hb
    rw [hothers' b hb, hothers b hb]

/-- The loop keeps the number of items, leaves every item with a map whose
apiVersion is the string form of the target, and keeps that apiVersion in every
map that had it. -/
theorem convertItems_apiVersion (targetGV : GroupVersion) :
    ∀ (items : List Unstructured) (h : Heap),
      (convertItems h targetGV items).2.length = items.length ∧
      (∀ u ∈ (convertItems h targetGV items).2, ∃ a, u = ⟨some a⟩ ∧
        getField ((convertItems h targetGV items).1.maps a) "apiVersion"
          = some (.str targetGV.String)) ∧
      (∀ a, getField (h.maps a) "apiVersion" = some (.str targetGV.String) →
        getField ((convertItems h targetGV items).1.maps a) "apiVersion"
          = some (.str targetGV.String)) := by
  intro items
  induction items with
  | nil =>
    intro h
    simp [convertItems]
  | cons item rest ih =>
    intro h
    obtain ⟨a, ha, hset, hothers⟩ :=
      SetGroupVersionKind_frame h item (targetGV.WithKind (item.GroupVersionKind h).Kind)
    have hstep : ∀ b, getField (h.maps b) "apiVersion" = some (.str targetGV.String) →
        getField ((convertItem h targetGV item).1.maps b) "apiVersion"
          = some (.str targetGV.String) := by
      intro b hb
      by_cases hba : b = a
      · subst hba
        exact hset
      · unfold convertItem
        rw [hothers b hba]
        exact hb
    obtain ⟨hlen, hitems, hkeep⟩ := ih (convertItem h targetGV item).1
    refine ⟨by simp [convertItems, hlen], ?_, ?_⟩
    · intro u hu
      simp only [convertItems, List.mem_cons] at hu
      rcases hu with hu | hu
      · refine ⟨a, by rw [hu]; exact ha, ?_⟩
        simp only [convertItems]
        exact hkeep a hset
      · exact hitems u hu
    · intro b hb
      simp only [convertItems]
      exact hkeep b (hstep b hb)

/-- One pass of the loop leaves an item that holds a map holding that map. -/
theorem convertItem_item (h : Heap) (targetGV : GroupVersion) (u : Unstructured)
    (hu : u.Object ≠ none) : (convertItem h targetGV u).2 = u := by
  obtain ⟨o⟩ := u
  cases o with
  | none => exact absurd rfl hu
  | some a => rfl

/-- The loop leaves every item that holds a map in its place, holding that map. -/
theorem convertItems_item (targetGV : GroupVersion) :
    ∀ (items : List Unstructured) (h : Heap) (i : Nat) (u : Unstructured),
      items[i]? = some u → u.Object ≠ none →
      (convertItems h targetGV items).2[i]? = some u := by
  intro items
  induction items with
  | nil =>
    intro h i u hi
    simp at hi
  | cons item rest ih =>
    intro h i u hi hu
    cases i with
    | zero =>
      simp only [List.getElem?_cons_zero, Option.some.injEq] at hi
      subst hi
      simp [convertItems, convertItem_item h targetGV item hu]
    | succ j =>
      simp only [List.getElem?_cons_succ] at hi
      simp only [convertItems, List.getElem?_cons_succ]
      exact ih _ j u hi hu

/-- The general course of `Convert`: no error, the list keeps its own map and the
number of its items, an item that holds a map stays in its place and holds that
map, every item's apiVersion is afterwards the string form of the target, and the group and version read back from it are the target's when
neither holds a slash. -/
theorem Convert_apiVersion (h : Heap) (list : UnstructuredList) (targetGV : GroupVersion) :
    (Convert h list targetGV).2.2 = none ∧
    (Convert h list targetGV).2.1.Object = list.Object ∧
    (Convert h list targetGV).2.1.Items.length = list.Items.length ∧
    (∀ (i : Nat) (u : Unstructured), list.Items[i]? = some u → u.Object ≠ none →
      (Convert h list targetGV).2.1.Items[i]? = some u) ∧
    (∀ u ∈ (Convert h list targetGV).2.1.Items,
      u.GetAPIVersion (Convert h list targetGV).1 = targetGV.String) ∧
    ('/' ∉ targetGV.Group.data → '/' ∉ targetGV.Version.data →
      ∀ u ∈ (Convert h list targetGV).2.1.Items,
        (u.GroupVersionKind (Convert h list targetGV).1).Group = targetGV.Group ∧
        (u.GroupVersionKind (Convert h list targetGV).1).Version = targetGV.Version) := by
  obtain ⟨hlen, hitems, _⟩ := convertItems_apiVersion targetGV list.Items h
  have hapi : ∀ u ∈ (Convert h list targetGV).2.1.Items,
      u.GetAPIVersion (Convert h list targetGV).1 = targetGV.String := by
    intro u hu
    obtain ⟨a, rfl, ha⟩ := hitems u hu
    simp only [Convert, Unstructured.GetAPIVersion, getNestedString, ha]
  refine ⟨rfl, rfl, hlen, fun i u hi hu => convertItems_item targetGV list.Items h i u hi hu,
    hapi, ?_⟩
  intro hg hv u hu
  unfold Unstructured.GroupVersionKind
  rw [hapi u hu, ParseGroupVersion_String targetGV hg hv]
  exact ⟨rfl, rfl⟩

/-! ## The no-op converter: the claims -/

/-- C9 fails on the code: with the target group `a/b` and version `v1` the
apiVersion of an item becomes `a/b/v1`, which does not parse, and the group and
version read back from the item are empty; with the empty group and the version
`a/b` they read back as `a` and `b`.  The loss is confined to targets with a
slash: `Convert` always returns the list it was given with a nil error and as
many items as before, an item that holds a map staying in its place and holding
that map; every item's apiVersion is afterwards the string form of the target, and the group and version read back are the target's when neither
holds a slash. -/
theorem Convert_group_version_not_read_back :
    apiVersionsAndKinds (Convert (sampleHeap "g/v1" "Foo") ⟨none, [⟨some 0⟩]⟩ ⟨"a/b", "v1"⟩).1
        (Convert (sampleHeap "g/v1" "Foo") ⟨none, [⟨some 0⟩]⟩ ⟨"a/b", "v1"⟩).2.1
      = [("a/b/v1", "Foo")] ∧
    groupsAndVersions (Convert (sampleHeap "g/v1" "Foo") ⟨none, [⟨some 0⟩]⟩ ⟨"a/b", "v1"⟩).1
        (Convert (sampleHeap "g/v1" "Foo") ⟨none, [⟨some 0⟩]⟩ ⟨"a/b", "v1"⟩).2.1
      = [("", "")] ∧
    groupsAndVersions (Convert (sampleHeap "g/v1" "Foo") ⟨none, [⟨some 0⟩]⟩ ⟨"", "a/b"⟩).1
        (Convert (sampleHeap "g/v1" "Foo") ⟨none, [⟨some 0⟩]⟩ ⟨"", "a/b"⟩).2.1
      = [("a", "b")] ∧
    (∀ h list targetGV,
      (Convert h list targetGV).2.2 = none ∧
      (Convert h list targetGV).2.1.Object = list.Object ∧
      (Convert h list targetGV).2.1.Items.length = list.Items.length ∧
      (∀ (i : Nat) (u : Unstructured), list.Items[i]? = some u → u.Object ≠ none →
        (Convert h list targetGV).2.1.Items[i]? = some u) ∧
      (∀ u ∈ (Convert h list targetGV).2.1.Items,
        u.GetAPIVersion (Convert h list targetGV).1 = targetGV.String) ∧
      ('/' ∉ targetGV.Group.data → '/' ∉ targetGV.Version.data →
        ∀ u ∈ (Convert h list targetGV).2.1.Items,
          (u.GroupVersionKind (Convert h list targetGV).1).Group = targetGV.Group ∧
          (u.GroupVersionKind (Convert h list targetGV).1).Version = targetGV.Version)) :=
  ⟨by decide, by decide, by decide, Convert_apiVersion⟩

/-- C10 fails on the code: an item whose apiVersion is the malformed `a/b/c` and
whose kind is `Foo` has the empty kind after `Convert`.  The loss is confined to
that case: one pass of the loop leaves every field of its item other than
apiVersion and kind as it was, keeps the kind of an item whose apiVersion
parses (the empty apiVersion does), and empties the kind of an item whose
apiVersion does not. -/
theorem Convert_kind_of_malformed_apiVersion :
    (⟨some 0⟩ : Unstructured).GetKind (sampleHeap "a/b/c" "Foo") = "Foo" ∧
    apiVersionsAndKinds
        (Convert (sampleHeap "a/b/c" "Foo") ⟨none, [⟨some 0⟩]⟩ ⟨"example.com", "v2"⟩).1
        (Convert (sampleHeap "a/b/c" "Foo") ⟨none, [⟨some 0⟩]⟩ ⟨"example.com", "v2"⟩).2.1
      = [("example.com/v2", "")] ∧
    apiVersionsAndKinds
        (Convert (sampleHeap "" "Foo") ⟨none, [⟨some 0⟩]⟩ ⟨"example.com", "v2"⟩).1
        (Convert (sampleHeap "" "Foo") ⟨none, [⟨some 0⟩]⟩ ⟨"example.com", "v2"⟩).2.1
      = [("example.com/v2", "Foo")] ∧
    (∀ h targetGV u k, k ≠ "apiVersion" → k ≠ "kind" →
      (convertItem h targetGV u).2.field (convertItem h targetGV u).1 k = u.field h k) ∧
    (∀ h targetGV u gv, ParseGroupVersion (u.GetAPIVersion h) = .ok gv →
      (convertItem h targetGV u).2.GetKind (convertItem h targetGV u).1 = u.GetKind h) ∧
    (∀ h targetGV u e, ParseGroupVersion (u.GetAPIVersion h) = .error e →
      (convertItem h targetGV u).2.GetKind (convertItem h targetGV u).1 = "") := by
  refine ⟨by decide, by decide, by decide,
    fun h targetGV u k h1 h2 => convertItem_field h targetGV u k h1 h2, ?_, ?_⟩
  · intro h targetGV u gv hp
    rw [convertItem_GetKind]
    simp [Unstructured.GroupVersionKind, hp, GroupVersion.WithKind]
  · intro h targetGV u e hp
    rw [convertItem_GetKind]
    simp [Unstructured.GroupVersionKind, hp]

/-- Two items of a list that hold one and the same map: with the target group
`a/b` the first pass of the loop leaves the apiVersion `a/b/v1` in the shared
map, the second pass finds it malformed, and both items end with the empty
kind. -/
theorem Convert_shared_map :
    apiVersionsAndKinds
        (Convert (sampleHeap "g/v1" "Foo") ⟨none, [⟨some 0⟩, ⟨some 0⟩]⟩ ⟨"a/b", "v1"⟩).1
        (Convert (sampleHeap "g/v1" "Foo") ⟨none, [⟨some 0⟩, ⟨some 0⟩]⟩ ⟨"a/b", "v1"⟩).2.1
      = [("a/b/v1", ""), ("a/b/v1", "")] := by
  decide

end Conversion

namespace Admission

/-! ## The admission plugin initializer -/

/-- The calls `Initialize` makes on a plugin, in order. -/
theorem Initialize_received (i : PluginInitializer) (plugin : Plugin) :
    (Initialize i plugin).received = plugin.received ++
      ((if plugin.implementsWantsRESTMapper then [PluginCall.SetRESTMapper i.RESTMapper]
          else []) ++
        (if plugin.implementsWantsQuotaConfiguration
          then [PluginCall.SetQuotaConfiguration i.QuotaConfiguration] else [])) := by
  obtain ⟨wr, wq, rcv⟩ := plugin
  cases wr <;> cases wq <;> simp [Initialize, Plugin.call]

/-- C11: the calls `Initialize` adds to those a plugin has received are: a
`SetRESTMapper`, with the initializer's RESTMapper, if and only if the plugin
implements `WantsRESTMapper`; a `SetQuotaConfiguration`, with the initializer's
QuotaConfiguration, if and only if it implements `WantsQuotaConfiguration`; and
nothing else.  A plugin implementing both receives both, the mapper first; a
plugin implementing neither is left as it was. -/
theorem Initialize_hands_out (i : PluginInitializer) (plugin : Plugin) :
    (∃ calls, (Initialize i plugin).received = plugin.received ++ calls ∧
      (∀ m, PluginCall.SetRESTMapper m ∈ calls ↔
        (plugin.implementsWantsRESTMapper = true ∧ m = i.RESTMapper)) ∧
      (∀ q, PluginCall.SetQuotaConfiguration q ∈ calls ↔
        (plugin.implementsWantsQuotaConfiguration = true ∧ q = i.QuotaConfiguration)) ∧
      calls.length = (if plugin.implementsWantsRESTMapper then 1 else 0)
        + (if plugin.implementsWantsQuotaConfiguration then 1 else 0)) ∧
    (plugin.implementsWantsRESTMapper = true →
      plugin.implementsWantsQuotaConfiguration = true →
      Initialize i plugin
        = (plugin.call (.SetRESTMapper i.RESTMapper)).call
            (.SetQuotaConfiguration i.QuotaConfiguration)) ∧
    (plugin.implementsWantsRESTMapper = false →
      plugin.implementsWantsQuotaConfiguration = false →
      Initialize i plugin = plugin) ∧
    (Initialize i plugin).implementsWantsRESTMapper = plugin.implementsWantsRESTMapper ∧
    (Initialize i plugin).implementsWantsQuotaConfiguration
      = plugin.implementsWantsQuotaConfiguration := by
  refine ⟨⟨_, Initialize_received i plugin, ?_, ?_, ?_⟩, ?_, ?_, ?_, ?_⟩
  · intro m
    cases plugin.implementsWantsRESTMapper <;> cases plugin.implementsWantsQuotaConfiguration <;>
      simp
  · intro q
    cases plugin.implementsWantsRESTMapper <;> cases plugin.implementsWantsQuotaConfiguration <;>
      simp
  · cases plugin.implementsWantsRESTMapper <;> cases plugin.implementsWantsQuotaConfiguration <;>
      simp
  · intro h1 h2
    simp [Initialize, Plugin.call, h1, h2]
  · intro h1 h2
    simp [Initialize, h1, h2]
  · obtain ⟨wr, wq, rcv⟩ := plugin
    cases wr <;> cases wq <;> simp [Initialize, Plugin.call]
  · obtain ⟨wr, wq, rcv⟩ := plugin
    cases wr <;> cases wq <;> simp [Initialize, Plugin.call]

/-- C11, at the sample initializer: a plugin implementing both interfaces, one
implementing only `WantsQuotaConfiguration`, and one implementing neither. -/
theorem Initialize_hands_out_witness :
    Initialize sampleInitializer ⟨true, true, []⟩
      = ⟨true, true, [.SetRESTMapper (some ⟨1⟩), .SetQuotaConfiguration (some ⟨2⟩)]⟩ ∧
    Initialize sampleInitializer ⟨false, true, []⟩
      = ⟨false, true, [.SetQuotaConfiguration (some ⟨2⟩)]⟩ ∧
    Initialize sampleInitializer ⟨false, false, []⟩ = ⟨false, false, []⟩ :=
  ⟨(Initialize_hands_out sampleInitializer ⟨true, true, []⟩).2.1 rfl rfl, by decide,
    (Initialize_hands_out sampleInitializer ⟨false, false, []⟩).2.2.1 rfl rfl⟩

end Admission
